import Mathlib

/-!
# DS2431 1-Wire EEPROM driver: scratchpad write, verification and commit

A shallow embedding of `DS2431.h` and `DS2431.cpp`.

* Bytes are natural numbers below 256, 16-bit words natural numbers below 65536.
* The `OneWire` object the driver holds is external to the repository.  Its
  observable state is the sequence of calls made on it so far (`List BusCall`);
  what it answers to a read is a parameter (`OneWire.reply`), as is its CRC-16
  check (`OneWire.check_crc16`).
* A C pointer to bytes is a function from offsets to bytes (`Nat → Nat`): whatever
  lies in memory behind the pointer.  The local array `buffer` of `_write` starts
  with indeterminate contents, which is the parameter `stack`.
* `delay(15)` is not a call on the bus and leaves no mark in the model.
* The header documents writes of up to 8 bytes; with `count` above 9 the C code
  overruns its 13-byte `buffer`, which the model does not follow.
-/

set_option autoImplicit false

/-! ## The bus -/

/-- One call made on the `OneWire` object, with its arguments and, for the two
reading calls, the bytes it returned. -/
inductive BusCall where
  | reset
  | skip
  | select (rom : List Nat)
  | write (v : Nat) (power : Nat)
  | write_bytes (bytes : List Nat) (power : Nat)
  | read (v : Nat)
  | read_bytes (bytes : List Nat)
  | depower
  deriving DecidableEq, Repr

/-- The `OneWire` collaborator (declared in `OneWire.h`, which is not part of the
repository).  `reply tr i` is the `i`-th byte the line would deliver to a read
issued after the calls `tr`; `check_crc16 input inverted_crc` is the library's
CRC-16 check of the bytes `input` against the two received CRC bytes. -/
structure OneWire where
  reply : List BusCall → Nat → Nat
  check_crc16 : List Nat → List Nat → Bool

namespace OneWire

def reset (_ow : OneWire) (tr : List BusCall) : List BusCall := tr ++ [BusCall.reset]

def skip (_ow : OneWire) (tr : List BusCall) : List BusCall := tr ++ [BusCall.skip]

def select (_ow : OneWire) (rom : List Nat) (tr : List BusCall) : List BusCall :=
  tr ++ [BusCall.select rom]

def write (_ow : OneWire) (v power : Nat) (tr : List BusCall) : List BusCall :=
  tr ++ [BusCall.write v power]

def write_bytes (_ow : OneWire) (bytes : List Nat) (power : Nat) (tr : List BusCall) :
    List BusCall :=
  tr ++ [BusCall.write_bytes bytes power]

/-- The call `uint8_t read()`: one byte from the line. -/
def read (ow : OneWire) (tr : List BusCall) : Nat × List BusCall :=
  (ow.reply tr 0 % 256, tr ++ [BusCall.read (ow.reply tr 0 % 256)])

/-- The call `read_bytes(buf, count)`: `count` bytes from the line. -/
def read_bytes (ow : OneWire) (count : Nat) (tr : List BusCall) : List Nat × List BusCall :=
  ((List.range count).map (fun i => ow.reply tr i % 256),
   tr ++ [BusCall.read_bytes ((List.range count).map (fun i => ow.reply tr i % 256))])

def depower (_ow : OneWire) (tr : List BusCall) : List BusCall := tr ++ [BusCall.depower]

end OneWire

namespace DS2431

/-! ## Constants of `DS2431.h` -/

def ONE_WIRE_MAC_SIZE : Nat := 8
def DS2431_EEPROM_SIZE : Nat := 128
def DS2431_ROW_SIZE : Nat := 8
def DS2431_PF_MASK : Nat := 0x07
def DS2431_WRITE_MASK : Nat := 0xAA
def DS2431_CMD_SIZE : Nat := 3
def DS2431_CRC_SIZE : Nat := 2
def DS2431_READ_RETRY : Nat := 2
def DS2431_BUFFER_SIZE : Nat := DS2431_ROW_SIZE + DS2431_CMD_SIZE + DS2431_CRC_SIZE

def WRITE_SCRATCHPAD : Nat := 0x0F
def READ_SCRATCHPAD : Nat := 0xAA
def COPY_SCRATCHPAD : Nat := 0x55
def READ_MEMORY : Nat := 0xF0

/-! ## Memory helpers -/

/-- Arduino `lowByte(w)`: `(uint8_t) ((w) & 0xff)`. -/
def lowByte (w : Nat) : Nat := w % 256

/-- Arduino `highByte(w)`: `(uint8_t) ((w) >> 8)`. -/
def highByte (w : Nat) : Nat := (w >>> 8) % 256

/-- The assignment `a[i] = v`. -/
def setByte (a : Nat → Nat) (i v : Nat) : Nat → Nat :=
  fun j => if j = i then v else a j

/-- The call `memcpy(&dst[off], src, n)`. -/
def memcpy (dst : Nat → Nat) (off : Nat) (src : Nat → Nat) (n : Nat) : Nat → Nat :=
  fun j => if off ≤ j ∧ j < off + n then src (j - off) else dst j

/-- Storing the bytes a `read_bytes(&dst[off], count)` returned. -/
def store (dst : Nat → Nat) (off : Nat) (bytes : List Nat) : Nat → Nat :=
  fun j => if off ≤ j ∧ j < off + bytes.length then bytes.getD (j - off) 0 else dst j

/-- The first `n` bytes behind a pointer, as a list. -/
def bytesOf (a : Nat → Nat) (n : Nat) : List Nat := (List.range n).map a

/-- The call `memcmp(a, b, n)`: zero when the first `n` bytes agree, otherwise the
difference of the first pair that differs. -/
def memcmp (a b : Nat → Nat) (n : Nat) : Int :=
  match ((List.range n).map (fun i => (a i : Int) - (b i : Int))).find? (fun x => x != 0) with
  | some x => x
  | none => 0

end DS2431

/-! ## The driver -/

/-- The fields of a `DS2431` object. -/
structure DS2431 where
  _ow : OneWire
  _serialNumber : List Nat
  _skiprom : Bool

namespace DS2431

/-- Source `DS2431::DS2431(OneWire &ow)`, lines 28-32: skip-ROM mode; `_serialNumber` is
left as it was (`garbage`). -/
def new (ow : OneWire) (garbage : List Nat) : DS2431 :=
  { _ow := ow, _serialNumber := garbage, _skiprom := true }

/-- Source `DS2431::begin`, lines 34-38: the 8 bytes of the serial number are copied
and skip-ROM mode is left. -/
def begin (d : DS2431) (serialNumber : List Nat) : DS2431 :=
  { d with _serialNumber := serialNumber.take ONE_WIRE_MAC_SIZE, _skiprom := false }

/-- Source `DS2431.h` lines 83-90, `_startTransmission()`: reset, then skip or select. -/
def _startTransmission (d : DS2431) (tr : List BusCall) : List BusCall :=
  let tr := d._ow.reset tr
  if d._skiprom then d._ow.skip tr else d._ow.select d._serialNumber tr

/-- The loop `for (int i = 0; i < len; i++) buf[i] = _ow.read();` of `read`,
with `n` iterations left; returns the bytes stored. -/
def readBytesLoop (d : DS2431) : Nat → List BusCall → List Nat × List BusCall
  | 0, tr => ([], tr)
  | n + 1, tr =>
    let r := d._ow.read tr
    let rest := readBytesLoop d n r.2
    (r.1 :: rest.1, rest.2)

/-- Source `DS2431::read(uint16_t address, uint8_t *buf, uint16_t len)`, lines 48-60.
Returns the `len` bytes stored into `buf`. -/
def read (d : DS2431) (address len : Nat) (tr : List BusCall) : List Nat × List BusCall :=
  let tr := d._startTransmission tr
  let tr := d._ow.write READ_MEMORY 1 tr
  let tr := d._ow.write (lowByte address) 1 tr
  let tr := d._ow.write (highByte address) 1 tr
  let r := readBytesLoop d len tr
  (r.1, d._ow.depower r.2)

/-- The local variables of `_write` that live across the do/while loop, with the
calls made on the bus so far. -/
structure LoopState where
  verify : Bool
  buffer : Nat → Nat
  tr : List BusCall

/-- What lines 108-109 leave behind: `buffer` with the payload read back, the two
CRC bytes read into `crc16`, and the calls made so far. -/
structure Readback where
  buffer : Nat → Nat
  crc16 : List Nat
  tr : List BusCall

/-- How the do/while loop of `_write` is left: through a `return false` inside it,
or at its end (by `break` or by the failing loop condition). -/
inductive LoopExit where
  | returned (ret : Bool)
  | fallThrough
  deriving DecidableEq, Repr

/-- Source `_write` lines 79-96: the frame is prepared in `buffer`, written to the
scratchpad, its CRC is read back and checked, and `buffer[0]` is set for the
read-back. -/
def stage (d : DS2431) (stack : Nat → Nat) (address : Nat) (buf : Nat → Nat) (count : Nat)
    (verify : Bool) (tr : List BusCall) : LoopState :=
  let buffer := setByte stack 0 WRITE_SCRATCHPAD
  let buffer := setByte buffer 1 (lowByte address)
  let buffer := setByte buffer 2 (highByte address)
  let buffer := memcpy buffer DS2431_CMD_SIZE buf count
  let tr := d._startTransmission tr
  let tr := d._ow.write_bytes (bytesOf buffer (DS2431_CMD_SIZE + count)) 1 tr
  let crc16 := d._ow.read_bytes DS2431_CRC_SIZE tr
  let tr := crc16.2
  let verify :=
    if !d._ow.check_crc16 (bytesOf buffer (DS2431_CMD_SIZE + count)) crc16.1 then true
    else verify
  let buffer := setByte buffer 0 READ_SCRATCHPAD
  { verify := verify, buffer := buffer, tr := tr }

/-- Source `_write` lines 99-105, the head of the loop body: a new session, the command
in `buffer[0]`, then TA1, TA2 and E/S read into `buffer[1..3]`; `verify` is forced
when E/S is not `DS2431_PF_MASK`. -/
def readHeader (d : DS2431) (s : LoopState) : LoopState :=
  let tr := d._startTransmission s.tr
  let tr := d._ow.write (s.buffer 0) 1 tr
  let ta := d._ow.read_bytes DS2431_CMD_SIZE tr
  let buffer := store s.buffer 1 ta.1
  let tr := ta.2
  let verify := if buffer 3 ≠ DS2431_PF_MASK then true else s.verify
  { verify := verify, buffer := buffer, tr := tr }

/-- Source `_write` lines 108-109: `count` bytes read into `&buffer[4]`, two into `crc16`. -/
def readPayload (d : DS2431) (count : Nat) (s : LoopState) : Readback :=
  let data := d._ow.read_bytes count s.tr
  let buffer := store s.buffer 4 data.1
  let tr := data.2
  let crc16 := d._ow.read_bytes DS2431_CRC_SIZE tr
  { buffer := buffer, crc16 := crc16.1, tr := crc16.2 }

/-- The do/while loop of `_write`, lines 97-130, entered with the local variables
`s` and the given `error_count`.  `error_count` never exceeds `DS2431_READ_RETRY`,
so its 8-bit arithmetic does not wrap. -/
def verifyLoop (d : DS2431) (address : Nat) (buf : Nat → Nat) (count : Nat)
    (error_count : Nat) (s : LoopState) : LoopExit × (Nat → Nat) × List BusCall :=
  let h := readHeader d s
  if h.verify then
    let p := readPayload d count h
    if !d._ow.check_crc16 (bytesOf p.buffer 12) p.crc16 then
      if error_count + 1 < DS2431_READ_RETRY then
        verifyLoop d address buf count (error_count + 1)
          { verify := h.verify, buffer := p.buffer, tr := p.tr }
      else
        (LoopExit.fallThrough, p.buffer, p.tr)
    else if address ≠ (p.buffer 2 <<< 8) + p.buffer 1 then
      (LoopExit.returned false, p.buffer, p.tr)
    else if p.buffer 3 ≠ DS2431_PF_MASK then
      (LoopExit.returned false, p.buffer, p.tr)
    else if memcmp (fun i => p.buffer (4 + i)) buf 8 ≠ 0 then
      (LoopExit.returned false, p.buffer, p.tr)
    else
      (LoopExit.fallThrough, p.buffer, p.tr)
  else
    (LoopExit.fallThrough, h.buffer, h.tr)
termination_by DS2431_READ_RETRY - error_count
decreasing_by
  simp only [DS2431_READ_RETRY] at *
  omega

/-- Source `_write` lines 132-146: the copy-scratchpad command with the authorization
bytes in `buffer[1..3]`, then one byte read and compared with `DS2431_WRITE_MASK`. -/
def commit (d : DS2431) (buffer : Nat → Nat) (tr : List BusCall) : Bool × List BusCall :=
  let buffer := setByte buffer 0 COPY_SCRATCHPAD
  let tr := d._startTransmission tr
  let tr := d._ow.write_bytes (bytesOf buffer (DS2431_CMD_SIZE + 1)) 1 tr
  let res := d._ow.read tr
  if res.1 ≠ DS2431_WRITE_MASK then (false, res.2) else (true, res.2)

/-- Source `DS2431::_write`, lines 69-147: the address guard, staging, the
verification loop, and the commit unless the loop returned. -/
def _write (d : DS2431) (stack : Nat → Nat) (address : Nat) (buf : Nat → Nat) (count : Nat)
    (verify : Bool) (tr : List BusCall) : Bool × List BusCall :=
  if address ≥ DS2431_EEPROM_SIZE ∨ address % 8 ≠ 0 then
    (false, tr)
  else
    match verifyLoop d address buf count 0 (stage d stack address buf count verify tr) with
    | (LoopExit.returned ret, _, tr) => (ret, tr)
    | (LoopExit.fallThrough, buffer, tr) => commit d buffer tr

/-- Source `DS2431::write`, lines 62-67: `_write`, then `depower` on every path. -/
def write (d : DS2431) (stack : Nat → Nat) (address : Nat) (buf : Nat → Nat) (count : Nat)
    (verify : Bool) (tr : List BusCall) : Bool × List BusCall :=
  let ret := _write d stack address buf count verify tr
  (ret.1, d._ow.depower ret.2)

/-! ## Observations on a run of `write` -/

/-- The call that addresses the device in `_startTransmission`. -/
def selectCall (d : DS2431) : BusCall :=
  if d._skiprom then BusCall.skip else BusCall.select d._serialNumber

/-- The library's CRC check of line 111 on a read-back. -/
def crcOk (d : DS2431) (p : Readback) : Bool :=
  d._ow.check_crc16 (bytesOf p.buffer 12) p.crc16

/-- The three comparisons of lines 116-126 on a read-back: `true` when one of them
makes `_write` return false. -/
def mismatch (address : Nat) (buf : Nat → Nat) (p : Readback) : Bool :=
  decide (address ≠ (p.buffer 2 <<< 8) + p.buffer 1) ||
    decide (p.buffer 3 ≠ DS2431_PF_MASK) ||
    decide (memcmp (fun i => p.buffer (4 + i)) buf 8 ≠ 0)

/-- First pass of the loop: the state after lines 99-105. -/
def header1 (d : DS2431) (stack : Nat → Nat) (address : Nat) (buf : Nat → Nat) (count : Nat)
    (verify : Bool) (tr : List BusCall) : LoopState :=
  readHeader d (stage d stack address buf count verify tr)

/-- First pass of the loop: the read-back of lines 108-109. -/
def payload1 (d : DS2431) (stack : Nat → Nat) (address : Nat) (buf : Nat → Nat) (count : Nat)
    (verify : Bool) (tr : List BusCall) : Readback :=
  readPayload d count (header1 d stack address buf count verify tr)

/-- Second pass of the loop (entered after a CRC mismatch in the first): the state
after lines 99-105. -/
def header2 (d : DS2431) (stack : Nat → Nat) (address : Nat) (buf : Nat → Nat) (count : Nat)
    (verify : Bool) (tr : List BusCall) : LoopState :=
  readHeader d
    { verify := (header1 d stack address buf count verify tr).verify,
      buffer := (payload1 d stack address buf count verify tr).buffer,
      tr := (payload1 d stack address buf count verify tr).tr }

/-- Second pass of the loop: the read-back of lines 108-109. -/
def payload2 (d : DS2431) (stack : Nat → Nat) (address : Nat) (buf : Nat → Nat) (count : Nat)
    (verify : Bool) (tr : List BusCall) : Readback :=
  readPayload d count (header2 d stack address buf count verify tr)

/-- The command bytes of a sequence of bus calls: the first byte written right
after each `skip` or `select`. -/
def commands : List BusCall → List Nat
  | [] => []
  | [_] => []
  | a :: b :: tr =>
    (match a, b with
      | BusCall.skip, BusCall.write v _ => [v]
      | BusCall.skip, BusCall.write_bytes (v :: _) _ => [v]
      | BusCall.select _, BusCall.write v _ => [v]
      | BusCall.select _, BusCall.write_bytes (v :: _) _ => [v]
      | _, _ => []) ++ commands (b :: tr)

/-- The frame `_write` stages: command, address low byte first, payload. -/
def stagedFrame (address : Nat) (buf : Nat → Nat) (count : Nat) : List Nat :=
  WRITE_SCRATCHPAD :: lowByte address :: highByte address :: bytesOf buf count

/-- The calls of the write-scratchpad exchange, with the CRC bytes `crc` read. -/
def stageCalls (d : DS2431) (address : Nat) (buf : Nat → Nat) (count : Nat)
    (crc : List Nat) : List BusCall :=
  [BusCall.reset, selectCall d, BusCall.write_bytes (stagedFrame address buf count) 1,
    BusCall.read_bytes crc]

/-- The calls of the head of a read-scratchpad exchange that read TA1, TA2, E/S
as `ta1`, `ta2`, `es`. -/
def headerCalls (d : DS2431) (ta1 ta2 es : Nat) : List BusCall :=
  [BusCall.reset, selectCall d, BusCall.write READ_SCRATCHPAD 1,
    BusCall.read_bytes [ta1, ta2, es]]

/-- The calls that read the payload `data` and the CRC bytes `crc` back. -/
def payloadCalls (data crc : List Nat) : List BusCall :=
  [BusCall.read_bytes data, BusCall.read_bytes crc]

/-- The calls of the copy-scratchpad exchange with authorization `ta1`, `ta2`, `es`
and acknowledgement `ack`. -/
def commitCalls (d : DS2431) (ta1 ta2 es ack : Nat) : List BusCall :=
  [BusCall.reset, selectCall d, BusCall.write_bytes [COPY_SCRATCHPAD, ta1, ta2, es] 1,
    BusCall.read ack]

/-- The payload bytes a read-back left in `buffer[4 .. 4 + count - 1]`. -/
def Readback.data (p : Readback) (count : Nat) : List Nat :=
  bytesOf (fun i => p.buffer (4 + i)) count

/-- The byte the line delivers to the `read()` that follows the copy-scratchpad
frame sent from `buffer` after the calls `tr`. -/
def ackByte (d : DS2431) (buffer : Nat → Nat) (tr : List BusCall) : Nat :=
  d._ow.reply (tr ++ [BusCall.reset, selectCall d,
    BusCall.write_bytes [COPY_SCRATCHPAD, buffer 1, buffer 2, buffer 3] 1]) 0 % 256

/-- The two CRC bytes `_write` reads after the write-scratchpad frame. -/
def stageCrc (d : DS2431) (address : Nat) (buf : Nat → Nat) (count : Nat)
    (tr : List BusCall) : List Nat :=
  (d._ow.read_bytes DS2431_CRC_SIZE (tr ++ [BusCall.reset, selectCall d,
    BusCall.write_bytes (stagedFrame address buf count) 1])).1

/-- The address a read-back echoes, as line 116 assembles it from TA2 and TA1. -/
def Readback.echo (p : Readback) : Nat := (p.buffer 2 <<< 8) + p.buffer 1

/-- The calls `write` has added to the bus when the first pass of the loop has
read TA1, TA2 and E/S. -/
def callsHeader1 (d : DS2431) (stack : Nat → Nat) (address : Nat) (buf : Nat → Nat)
    (count : Nat) (verify : Bool) (tr : List BusCall) : List BusCall :=
  stageCalls d address buf count (stageCrc d address buf count tr) ++
    headerCalls d ((header1 d stack address buf count verify tr).buffer 1)
      ((header1 d stack address buf count verify tr).buffer 2)
      ((header1 d stack address buf count verify tr).buffer 3)

/-- The calls added when the first pass has read payload and CRC back. -/
def callsPayload1 (d : DS2431) (stack : Nat → Nat) (address : Nat) (buf : Nat → Nat)
    (count : Nat) (verify : Bool) (tr : List BusCall) : List BusCall :=
  callsHeader1 d stack address buf count verify tr ++
    payloadCalls ((payload1 d stack address buf count verify tr).data count)
      (payload1 d stack address buf count verify tr).crc16

/-- The calls added when the second pass has read TA1, TA2 and E/S. -/
def callsHeader2 (d : DS2431) (stack : Nat → Nat) (address : Nat) (buf : Nat → Nat)
    (count : Nat) (verify : Bool) (tr : List BusCall) : List BusCall :=
  callsPayload1 d stack address buf count verify tr ++
    headerCalls d ((header2 d stack address buf count verify tr).buffer 1)
      ((header2 d stack address buf count verify tr).buffer 2)
      ((header2 d stack address buf count verify tr).buffer 3)

/-- The calls added when the second pass has read payload and CRC back. -/
def callsPayload2 (d : DS2431) (stack : Nat → Nat) (address : Nat) (buf : Nat → Nat)
    (count : Nat) (verify : Bool) (tr : List BusCall) : List BusCall :=
  callsHeader2 d stack address buf count verify tr ++
    payloadCalls ((payload2 d stack address buf count verify tr).data count)
      (payload2 d stack address buf count verify tr).crc16

/-- The calls of the copy-scratchpad exchange made from `buffer` after `tr`. -/
def callsCommit (d : DS2431) (buffer : Nat → Nat) (tr : List BusCall) : List BusCall :=
  commitCalls d (buffer 1) (buffer 2) (buffer 3) (ackByte d buffer tr)

end DS2431

/-! ## Simulated buses -/

namespace Sim

/-- Modelled from the spec: the parity table of the CRC-16 utility of the bus
collaborator (the OneWire library, which is not part of the repository). -/
def oddparity : List Nat := [0, 1, 1, 0, 1, 0, 0, 1, 1, 0, 0, 1, 0, 1, 1, 0]

/-- Modelled from the spec: one byte of the CRC-16 (polynomial x^16 + x^15 + x^2 + 1,
bit-reflected) of the bus collaborator, on a 16-bit accumulator. -/
def crc16Step (crc b : Nat) : Nat :=
  let cdata := (b ^^^ crc) &&& 0xFF
  let crc := crc >>> 8
  let crc :=
    if oddparity.getD (cdata &&& 0x0F) 0 ^^^ oddparity.getD (cdata >>> 4) 0 ≠ 0 then crc ^^^ 0xC001
    else crc
  let cdata := cdata <<< 6
  let crc := crc ^^^ cdata
  let cdata := cdata <<< 1
  crc ^^^ cdata

/-- Modelled from the spec: the CRC-16 of a byte span, from accumulator 0. -/
def crc16 (input : List Nat) : Nat := input.foldl crc16Step 0

/-- Modelled from the spec: the two bytes a device sends as the CRC of a frame, the
bitwise complement of the 16-bit CRC, low byte first. -/
def crcBytes (input : List Nat) : List Nat :=
  [(0xFFFF - crc16 input % 65536) &&& 0xFF, ((0xFFFF - crc16 input % 65536) >>> 8) % 256]

/-- Modelled from the spec: the CRC-16 check-and-compare utility of the bus
collaborator: the complemented CRC of `input` against the two received bytes. -/
def check_crc16 (input inverted_crc : List Nat) : Bool :=
  ((0xFFFF - crc16 input % 65536) &&& 0xFF) == inverted_crc.getD 0 0 &&
    ((0xFFFF - crc16 input % 65536) >>> 8) == inverted_crc.getD 1 0

/-- Number of bytes the calls `tr` have read from the line. -/
def bytesRead : List BusCall → Nat
  | [] => 0
  | BusCall.read _ :: tr => 1 + bytesRead tr
  | BusCall.read_bytes bs :: tr => bs.length + bytesRead tr
  | _ :: tr => bytesRead tr

/-- A line that delivers the bytes of `script` one after the other, whatever is
written to it, and `0xFF` (the idle line) once the script is exhausted. -/
def scripted (script : List Nat) : OneWire where
  reply := fun tr i => script.getD (bytesRead tr + i) 0xFF
  check_crc16 := check_crc16

/-- A line stuck on one byte: every read delivers `b`. -/
def stuck (b : Nat) : OneWire where
  reply := fun _ _ => b
  check_crc16 := check_crc16

end Sim

/-! ## Devices used as concrete inputs -/

namespace Sim

/-- A driver in skip-ROM mode on the line `ow`. -/
def driver (ow : OneWire) : DS2431 := DS2431.new ow (List.replicate 8 0)

/-- A driver addressing the device with ROM code `rom` on the line `ow`. -/
def driverFor (ow : OneWire) (rom : List Nat) : DS2431 := (driver ow).begin rom

/-- Indeterminate stack contents that happen to be all zero. -/
def zeros : Nat → Nat := fun _ => 0

/-- Caller memory holding the bytes 1, 2, 3, ... from the pointer on. -/
def row : Nat → Nat := fun i => i + 1

/-- A line on which the write-scratchpad CRC, the address echo, the status and the
payload read back are all right for a write of 1..8 at address 0, but the CRC of
each read-back arrives as 0, 0; the acknowledgement is 0xAA. -/
def badReadbackCrc : OneWire :=
  scripted [63, 47,
    0, 0, 7, 1, 2, 3, 4, 5, 6, 7, 8, 0, 0,
    0, 0, 7, 1, 2, 3, 4, 5, 6, 7, 8, 0, 0,
    0xAA]

/-- A line on which everything is right for a write of 1..8 at address 0 except
the last payload byte read back, 9 for 8 (the read-back CRC is that of the bytes
delivered). -/
def badPayload : OneWire :=
  scripted [63, 47, 0, 0, 7, 1, 2, 3, 4, 5, 6, 7, 9, 115, 18, 0xAA]

/-- A line on which a device answers a 4-byte write of 1, 2, 3, 4 at address 0 with
the CRC of exactly the bytes exchanged: 161, 240 for the 7-byte write-scratchpad
frame and 97, 55 for the 8 bytes 0xAA, 0, 0, 7, 1, 2, 3, 4 of each read-back. -/
def shortRow : OneWire :=
  scripted [161, 240,
    0, 0, 7, 1, 2, 3, 4, 97, 55,
    0, 0, 7, 1, 2, 3, 4, 97, 55,
    0xAA]

/-- The same line, except that the CRC of the read-back is the one of the 12 bytes
0xAA, 0, 0, 7, 1, 2, 3, 4, 0, 0, 0, 0. -/
def shortRowPadded : OneWire :=
  scripted [161, 240, 0, 0, 7, 1, 2, 3, 4, 81, 233, 0xAA]

/-- A line on which the CRC of the write-scratchpad frame arrives as 0, 0 (wrong),
the scratchpad reads back as 0, 0, 7 with payload 9, 9, 9, 9, 9, 9, 9, 9, the CRC of
each read-back arrives as 0, 0 (wrong), and the acknowledgement is 0xAA. -/
def noisyAllCrc : OneWire :=
  scripted [0, 0,
    0, 0, 7, 9, 9, 9, 9, 9, 9, 9, 9, 0, 0,
    0, 0, 7, 9, 9, 9, 9, 9, 9, 9, 9, 0, 0,
    0xAA]

/-- The same line, except that the CRC of the read-back is right for the bytes
delivered (210, 44). -/
def noisyStageCrc : OneWire :=
  scripted [0, 0, 0, 0, 7, 9, 9, 9, 9, 9, 9, 9, 9, 210, 44, 0xAA]

/-- Indeterminate stack contents that happen to be all one. -/
def ones : Nat → Nat := fun _ => 1

/-- Caller memory holding 1, 2, 3, 4 in the caller's 4-byte buffer and zeros behind it. -/
def fourThenZeros : Nat → Nat := fun i => if i < 4 then i + 1 else 0

/-- Where a simulated DS2431 stands in a bus session. -/
inductive Phase where
  | idle
  | command
  | addressLow
  | addressHigh (lo : Nat)
  | busy
  deriving DecidableEq, Repr

/-- Modelled from the spec: the state of a simulated DS2431: its 128-byte memory, its
scratchpad with the target address registers, where it stands in the session, and
the bytes it has queued for the master to read. -/
structure Chip where
  memory : Nat → Nat
  scratchpad : List Nat
  ta1 : Nat
  ta2 : Nat
  phase : Phase
  out : List Nat

/-- A chip with memory and scratchpad cleared. -/
def Chip.blank : Chip :=
  { memory := fun _ => 0, scratchpad := List.replicate 8 0, ta1 := 0, ta2 := 0,
    phase := Phase.idle, out := [] }

/-- Modelled from the spec: the reaction of a fault-free DS2431 with status byte `es`
to one call on the bus.  Write-scratchpad (0x0F) loads address and scratchpad and
queues the CRC-16 of the frame; read-scratchpad (0xAA) queues address, status,
scratchpad and the CRC-16 of command and reply; copy-scratchpad (0x55) with the
matching authorization copies the scratchpad to memory and queues the
acknowledgement 0xAA; read-memory (0xF0) with a two-byte address queues the memory
from that address on.  Reads consume the queue. -/
def Chip.step (es : Nat) (c : Chip) : BusCall → Chip
  | BusCall.reset => { c with phase := Phase.idle, out := [] }
  | BusCall.skip => { c with phase := Phase.command }
  | BusCall.select _ => { c with phase := Phase.command }
  | BusCall.write v _ =>
    match c.phase with
    | Phase.command =>
      if v = 0xAA then
        { c with
          phase := Phase.busy
          out := c.ta1 :: c.ta2 :: es :: (c.scratchpad ++
            crcBytes (0xAA :: c.ta1 :: c.ta2 :: es :: c.scratchpad)) }
      else if v = 0xF0 then { c with phase := Phase.addressLow }
      else { c with phase := Phase.busy }
    | Phase.addressLow => { c with phase := Phase.addressHigh v }
    | Phase.addressHigh lo =>
      { c with
        phase := Phase.busy
        out := (List.range (128 - (lo + 256 * v))).map (fun i => c.memory (lo + 256 * v + i)) }
    | _ => c
  | BusCall.write_bytes bytes _ =>
    match c.phase, bytes with
    | Phase.command, cmd :: a1 :: a2 :: rest =>
      if cmd = 0x0F then
        { c with
          phase := Phase.busy, scratchpad := rest, ta1 := a1, ta2 := a2
          out := crcBytes (cmd :: a1 :: a2 :: rest) }
      else if cmd = 0x55 ∧ a1 = c.ta1 ∧ a2 = c.ta2 ∧ rest = [es] then
        { c with
          phase := Phase.busy
          memory := fun j =>
            if c.ta1 + 256 * c.ta2 ≤ j ∧ j < c.ta1 + 256 * c.ta2 + c.scratchpad.length then
              c.scratchpad.getD (j - (c.ta1 + 256 * c.ta2)) 0
            else c.memory j
          out := [0xAA] }
      else { c with phase := Phase.busy }
    | _, _ => c
  | BusCall.read _ => { c with out := c.out.drop 1 }
  | BusCall.read_bytes bytes => { c with out := c.out.drop bytes.length }
  | BusCall.depower => c

/-- The chip after the calls `tr`, from the blank chip. -/
def chipAfter (es : Nat) (tr : List BusCall) : Chip := tr.foldl (Chip.step es) Chip.blank

/-- Modelled from the spec: a fault-free line with one simulated DS2431 on it, whose
status byte is `es` (0x07 on the real device after a full-row write).  An empty queue
reads as 0xFF, the idle line. -/
def chipLine (es : Nat) : OneWire where
  reply := fun tr i => (chipAfter es tr).out.getD i 0xFF
  check_crc16 := check_crc16

end Sim

/-! ## How a run of `_write` unfolds -/

namespace DS2431

theorem startTransmission_eq (d : DS2431) (tr : List BusCall) :
    d._startTransmission tr = tr ++ [BusCall.reset, selectCall d] := by
  unfold _startTransmission selectCall
  cases d._skiprom <;> simp [OneWire.reset, OneWire.skip, OneWire.select]

theorem bytesOf_succ (a : Nat → Nat) (n : Nat) :
    bytesOf a (n + 1) = a 0 :: bytesOf (fun i => a (i + 1)) n := by
  simp [bytesOf, List.range_succ_eq_map, Function.comp_def]

theorem bytesOf_length (a : Nat → Nat) (n : Nat) : (bytesOf a n).length = n := by
  simp [bytesOf]

theorem bytesOf_congr (a b : Nat → Nat) (n : Nat) (h : ∀ i, i < n → a i = b i) :
    bytesOf a n = bytesOf b n := by
  unfold bytesOf
  apply List.map_congr_left
  intro i hi
  exact h i (List.mem_range.mp hi)

theorem stage_frame (stack : Nat → Nat) (address : Nat) (buf : Nat → Nat) (count : Nat) :
    bytesOf (memcpy (setByte (setByte (setByte stack 0 WRITE_SCRATCHPAD) 1 (lowByte address)) 2
      (highByte address)) DS2431_CMD_SIZE buf count) (DS2431_CMD_SIZE + count) =
      stagedFrame address buf count := by
  have h : DS2431_CMD_SIZE + count = count + 1 + 1 + 1 := by simp [DS2431_CMD_SIZE]; omega
  rw [h, bytesOf_succ, bytesOf_succ, bytesOf_succ, stagedFrame]
  have e : bytesOf (fun i => (fun i => (fun i => memcpy (setByte (setByte (setByte stack 0
      WRITE_SCRATCHPAD) 1 (lowByte address)) 2 (highByte address)) DS2431_CMD_SIZE buf count
      (i + 1)) (i + 1)) (i + 1)) count = bytesOf buf count := by
    apply bytesOf_congr
    intro i hi
    simp only [memcpy, DS2431_CMD_SIZE]
    rw [if_pos (by omega)]
    congr 1
  rw [e]
  simp [memcpy, setByte, DS2431_CMD_SIZE]

theorem stage_tr (d : DS2431) (stack : Nat → Nat) (address : Nat) (buf : Nat → Nat)
    (count : Nat) (verify : Bool) (tr : List BusCall) :
    (stage d stack address buf count verify tr).tr =
      tr ++ stageCalls d address buf count (stageCrc d address buf count tr) := by
  simp only [stage, stage_frame, startTransmission_eq, OneWire.read_bytes,
    OneWire.write_bytes, stageCalls, stageCrc]
  simp

theorem stage_verify (d : DS2431) (stack : Nat → Nat) (address : Nat) (buf : Nat → Nat)
    (count : Nat) (verify : Bool) (tr : List BusCall) :
    (stage d stack address buf count verify tr).verify =
      (!d._ow.check_crc16 (stagedFrame address buf count) (stageCrc d address buf count tr)
        || verify) := by
  simp only [stage, stage_frame, startTransmission_eq, OneWire.read_bytes,
    OneWire.write_bytes, stageCrc, List.append_assoc, List.cons_append, List.nil_append]
  cases d._ow.check_crc16 (stagedFrame address buf count) _ <;> simp

theorem stage_buffer_verify (d : DS2431) (stack : Nat → Nat) (address : Nat)
    (buf : Nat → Nat) (count : Nat) (v w : Bool) (tr : List BusCall) :
    (stage d stack address buf count v tr).buffer =
      (stage d stack address buf count w tr).buffer := by
  simp [stage]

theorem stage_buffer_zero (d : DS2431) (stack : Nat → Nat) (address : Nat) (buf : Nat → Nat)
    (count : Nat) (verify : Bool) (tr : List BusCall) :
    (stage d stack address buf count verify tr).buffer 0 = READ_SCRATCHPAD := by
  simp [stage, setByte]

theorem readHeader_buffer_zero (d : DS2431) (s : LoopState) :
    (readHeader d s).buffer 0 = s.buffer 0 := by
  simp [readHeader, store]

theorem readHeader_tr (d : DS2431) (s : LoopState) :
    (readHeader d s).tr = s.tr ++ [BusCall.reset, selectCall d, BusCall.write (s.buffer 0) 1,
      BusCall.read_bytes [(readHeader d s).buffer 1, (readHeader d s).buffer 2,
        (readHeader d s).buffer 3]] := by
  simp [readHeader, startTransmission_eq, OneWire.read_bytes, OneWire.write, store,
    DS2431_CMD_SIZE, List.range_succ]

theorem readPayload_buffer_low (d : DS2431) (count : Nat) (s : LoopState) (j : Nat)
    (hj : j < 4) : (readPayload d count s).buffer j = s.buffer j := by
  simp only [readPayload, store]
  rw [if_neg (by omega)]

theorem readPayload_tr (d : DS2431) (count : Nat) (s : LoopState) :
    (readPayload d count s).tr =
      s.tr ++ payloadCalls ((readPayload d count s).data count) (readPayload d count s).crc16 := by
  have e : (readPayload d count s).data count = (d._ow.read_bytes count s.tr).1 := by
    simp only [Readback.data, readPayload, bytesOf, OneWire.read_bytes, store, List.length_map,
      List.length_range]
    apply List.map_congr_left
    intro i hi
    have hi := List.mem_range.mp hi
    rw [if_pos (by omega)]
    simp [List.getD_eq_getElem?_getD, hi]
  rw [e]
  simp [readPayload, OneWire.read_bytes, payloadCalls]

theorem readPayload_crc_length (d : DS2431) (count : Nat) (s : LoopState) :
    (readPayload d count s).crc16.length = 2 := by
  simp [readPayload, OneWire.read_bytes, DS2431_CRC_SIZE]

theorem commit_eq (d : DS2431) (buffer : Nat → Nat) (tr : List BusCall) :
    commit d buffer tr =
      (decide (ackByte d buffer tr = DS2431_WRITE_MASK),
        tr ++ commitCalls d (buffer 1) (buffer 2) (buffer 3) (ackByte d buffer tr)) := by
  have hb : bytesOf (setByte buffer 0 COPY_SCRATCHPAD) (DS2431_CMD_SIZE + 1) =
      [COPY_SCRATCHPAD, buffer 1, buffer 2, buffer 3] := by
    simp [bytesOf, setByte, DS2431_CMD_SIZE, List.range_succ]
  simp only [commit, hb, startTransmission_eq, OneWire.write_bytes, OneWire.read,
    List.append_assoc, List.cons_append, List.nil_append, ackByte, commitCalls]
  by_cases h : d._ow.reply (tr ++ [BusCall.reset, selectCall d,
      BusCall.write_bytes [COPY_SCRATCHPAD, buffer 1, buffer 2, buffer 3] 1]) 0 % 256 =
      DS2431_WRITE_MASK
  · simp [h]
  · simp [h]

theorem readHeader_verify_of_verify (d : DS2431) (s : LoopState) (h : s.verify = true) :
    (readHeader d s).verify = true := by
  simp [readHeader, h]

/-- The loop entered with `error_count = 1` makes one pass and no more. -/
theorem verifyLoop_last (d : DS2431) (address : Nat) (buf : Nat → Nat) (count : Nat)
    (s : LoopState) :
    verifyLoop d address buf count 1 s =
      if (readHeader d s).verify then
        if crcOk d (readPayload d count (readHeader d s)) then
          if mismatch address buf (readPayload d count (readHeader d s)) then
            (LoopExit.returned false, (readPayload d count (readHeader d s)).buffer,
              (readPayload d count (readHeader d s)).tr)
          else
            (LoopExit.fallThrough, (readPayload d count (readHeader d s)).buffer,
              (readPayload d count (readHeader d s)).tr)
        else
          (LoopExit.fallThrough, (readPayload d count (readHeader d s)).buffer,
            (readPayload d count (readHeader d s)).tr)
      else (LoopExit.fallThrough, (readHeader d s).buffer, (readHeader d s).tr) := by
  rw [verifyLoop]
  simp only [crcOk, mismatch, DS2431_READ_RETRY]
  by_cases hv : (readHeader d s).verify = true
  · by_cases hc : d._ow.check_crc16 (bytesOf (readPayload d count (readHeader d s)).buffer 12)
        (readPayload d count (readHeader d s)).crc16 = true
    · by_cases h1 : address = ((readPayload d count (readHeader d s)).buffer 2 <<< 8) +
          (readPayload d count (readHeader d s)).buffer 1
      · by_cases h2 : (readPayload d count (readHeader d s)).buffer 3 = DS2431_PF_MASK
        · by_cases h3 : memcmp (fun i => (readPayload d count (readHeader d s)).buffer (4 + i))
              buf 8 = 0
          · simp [hv, hc, ← h1, h2, h3]
          · simp [hv, hc, ← h1, h2, h3]
        · simp [hv, hc, ← h1, h2]
      · simp [hv, hc, h1]
    · simp [hv, hc]
  · simp [hv]

/-- The loop entered with `error_count = 0` makes one pass, and a second one when
the CRC check of the first fails. -/
theorem verifyLoop_first (d : DS2431) (address : Nat) (buf : Nat → Nat) (count : Nat)
    (s : LoopState) :
    verifyLoop d address buf count 0 s =
      if (readHeader d s).verify then
        if crcOk d (readPayload d count (readHeader d s)) then
          if mismatch address buf (readPayload d count (readHeader d s)) then
            (LoopExit.returned false, (readPayload d count (readHeader d s)).buffer,
              (readPayload d count (readHeader d s)).tr)
          else
            (LoopExit.fallThrough, (readPayload d count (readHeader d s)).buffer,
              (readPayload d count (readHeader d s)).tr)
        else
          verifyLoop d address buf count 1
            { verify := (readHeader d s).verify,
              buffer := (readPayload d count (readHeader d s)).buffer,
              tr := (readPayload d count (readHeader d s)).tr }
      else (LoopExit.fallThrough, (readHeader d s).buffer, (readHeader d s).tr) := by
  rw [verifyLoop]
  simp only [crcOk, mismatch, DS2431_READ_RETRY]
  by_cases hv : (readHeader d s).verify = true
  · by_cases hc : d._ow.check_crc16 (bytesOf (readPayload d count (readHeader d s)).buffer 12)
        (readPayload d count (readHeader d s)).crc16 = true
    · by_cases h1 : address = ((readPayload d count (readHeader d s)).buffer 2 <<< 8) +
          (readPayload d count (readHeader d s)).buffer 1
      · by_cases h2 : (readPayload d count (readHeader d s)).buffer 3 = DS2431_PF_MASK
        · by_cases h3 : memcmp (fun i => (readPayload d count (readHeader d s)).buffer (4 + i))
              buf 8 = 0
          · simp [hv, hc, ← h1, h2, h3]
          · simp [hv, hc, ← h1, h2, h3]
        · simp [hv, hc, ← h1, h2]
      · simp [hv, hc, h1]
    · simp [hv, hc]
  · simp [hv]

/-- The whole of `_write` on a valid address, pass by pass. -/
theorem _write_eq (d : DS2431) (stack : Nat → Nat) (address : Nat) (buf : Nat → Nat)
    (count : Nat) (verify : Bool) (tr : List BusCall)
    (hlt : address < 128) (hal : address % 8 = 0) :
    _write d stack address buf count verify tr =
      if (header1 d stack address buf count verify tr).verify then
        if crcOk d (payload1 d stack address buf count verify tr) then
          if mismatch address buf (payload1 d stack address buf count verify tr) then
            (false, (payload1 d stack address buf count verify tr).tr)
          else
            commit d (payload1 d stack address buf count verify tr).buffer
              (payload1 d stack address buf count verify tr).tr
        else if crcOk d (payload2 d stack address buf count verify tr) then
          if mismatch address buf (payload2 d stack address buf count verify tr) then
            (false, (payload2 d stack address buf count verify tr).tr)
          else
            commit d (payload2 d stack address buf count verify tr).buffer
              (payload2 d stack address buf count verify tr).tr
        else
          commit d (payload2 d stack address buf count verify tr).buffer
            (payload2 d stack address buf count verify tr).tr
      else
        commit d (header1 d stack address buf count verify tr).buffer
          (header1 d stack address buf count verify tr).tr := by
  have hcond : ¬ (address ≥ DS2431_EEPROM_SIZE ∨ address % 8 ≠ 0) := by
    simp only [DS2431_EEPROM_SIZE]; omega
  unfold _write
  rw [if_neg hcond, verifyLoop_first, verifyLoop_last]
  simp only [payload2, header2, payload1, header1]
  by_cases hv : (readHeader d (stage d stack address buf count verify tr)).verify = true
  · have hv2 := readHeader_verify_of_verify d
      { verify := true,
        buffer := (readPayload d count
          (readHeader d (stage d stack address buf count verify tr))).buffer,
        tr := (readPayload d count
          (readHeader d (stage d stack address buf count verify tr))).tr } rfl
    simp only [hv, hv2, if_true]
    split_ifs <;> rfl
  · simp only [hv]
    rfl

end DS2431

/-! ## The calls made in each pass -/

namespace DS2431

section passes

variable (d : DS2431) (stack : Nat → Nat) (address : Nat) (buf : Nat → Nat) (count : Nat)
  (verify : Bool) (tr : List BusCall)

theorem header1_tr :
    (header1 d stack address buf count verify tr).tr =
      tr ++ stageCalls d address buf count (stageCrc d address buf count tr) ++
        headerCalls d ((header1 d stack address buf count verify tr).buffer 1)
          ((header1 d stack address buf count verify tr).buffer 2)
          ((header1 d stack address buf count verify tr).buffer 3) := by
  rw [header1, readHeader_tr, stage_tr, stage_buffer_zero, headerCalls]

theorem payload1_tr :
    (payload1 d stack address buf count verify tr).tr =
      (header1 d stack address buf count verify tr).tr ++
        payloadCalls ((payload1 d stack address buf count verify tr).data count)
          (payload1 d stack address buf count verify tr).crc16 := by
  rw [payload1, readPayload_tr]

theorem payload1_buffer_low (j : Nat) (hj : j < 4) :
    (payload1 d stack address buf count verify tr).buffer j =
      (header1 d stack address buf count verify tr).buffer j := by
  rw [payload1, readPayload_buffer_low _ _ _ _ hj]

theorem header2_tr :
    (header2 d stack address buf count verify tr).tr =
      (payload1 d stack address buf count verify tr).tr ++
        headerCalls d ((header2 d stack address buf count verify tr).buffer 1)
          ((header2 d stack address buf count verify tr).buffer 2)
          ((header2 d stack address buf count verify tr).buffer 3) := by
  rw [header2, readHeader_tr]
  simp only []
  rw [payload1_buffer_low _ _ _ _ _ _ _ 0 (by omega), header1, readHeader_buffer_zero,
    stage_buffer_zero, headerCalls]

theorem payload2_tr :
    (payload2 d stack address buf count verify tr).tr =
      (header2 d stack address buf count verify tr).tr ++
        payloadCalls ((payload2 d stack address buf count verify tr).data count)
          (payload2 d stack address buf count verify tr).crc16 := by
  rw [payload2, readPayload_tr]

theorem payload2_buffer_low (j : Nat) (hj : j < 4) :
    (payload2 d stack address buf count verify tr).buffer j =
      (header2 d stack address buf count verify tr).buffer j := by
  rw [payload2, readPayload_buffer_low _ _ _ _ hj]

end passes

end DS2431

/-! ## The calls `write` adds to the bus, branch by branch -/

namespace DS2431

section shapes

variable (d : DS2431) (stack : Nat → Nat) (address : Nat) (buf : Nat → Nat) (count : Nat)
  (verify : Bool) (tr : List BusCall)

theorem header1_calls :
    (header1 d stack address buf count verify tr).tr =
      tr ++ callsHeader1 d stack address buf count verify tr := by
  rw [header1_tr, callsHeader1, List.append_assoc]

theorem payload1_calls :
    (payload1 d stack address buf count verify tr).tr =
      tr ++ callsPayload1 d stack address buf count verify tr := by
  rw [payload1_tr, header1_calls, callsPayload1, List.append_assoc]

theorem header2_calls :
    (header2 d stack address buf count verify tr).tr =
      tr ++ callsHeader2 d stack address buf count verify tr := by
  rw [header2_tr, payload1_calls, callsHeader2, List.append_assoc]

theorem payload2_calls :
    (payload2 d stack address buf count verify tr).tr =
      tr ++ callsPayload2 d stack address buf count verify tr := by
  rw [payload2_tr, header2_calls, callsPayload2, List.append_assoc]

/-- The result of `write` on a valid address and every call it adds to the bus. -/
theorem write_eq (hlt : address < 128) (hal : address % 8 = 0) :
    write d stack address buf count verify tr =
      if (header1 d stack address buf count verify tr).verify then
        if crcOk d (payload1 d stack address buf count verify tr) then
          if mismatch address buf (payload1 d stack address buf count verify tr) then
            (false, tr ++ (callsPayload1 d stack address buf count verify tr ++
              [BusCall.depower]))
          else
            (decide (ackByte d (payload1 d stack address buf count verify tr).buffer
                (payload1 d stack address buf count verify tr).tr = DS2431_WRITE_MASK),
              tr ++ (callsPayload1 d stack address buf count verify tr ++
                callsCommit d (payload1 d stack address buf count verify tr).buffer
                  (payload1 d stack address buf count verify tr).tr ++ [BusCall.depower]))
        else if crcOk d (payload2 d stack address buf count verify tr) then
          if mismatch address buf (payload2 d stack address buf count verify tr) then
            (false, tr ++ (callsPayload2 d stack address buf count verify tr ++
              [BusCall.depower]))
          else
            (decide (ackByte d (payload2 d stack address buf count verify tr).buffer
                (payload2 d stack address buf count verify tr).tr = DS2431_WRITE_MASK),
              tr ++ (callsPayload2 d stack address buf count verify tr ++
                callsCommit d (payload2 d stack address buf count verify tr).buffer
                  (payload2 d stack address buf count verify tr).tr ++ [BusCall.depower]))
        else
          (decide (ackByte d (payload2 d stack address buf count verify tr).buffer
              (payload2 d stack address buf count verify tr).tr = DS2431_WRITE_MASK),
            tr ++ (callsPayload2 d stack address buf count verify tr ++
              callsCommit d (payload2 d stack address buf count verify tr).buffer
                (payload2 d stack address buf count verify tr).tr ++ [BusCall.depower]))
      else
        (decide (ackByte d (header1 d stack address buf count verify tr).buffer
            (header1 d stack address buf count verify tr).tr = DS2431_WRITE_MASK),
          tr ++ (callsHeader1 d stack address buf count verify tr ++
            callsCommit d (header1 d stack address buf count verify tr).buffer
              (header1 d stack address buf count verify tr).tr ++ [BusCall.depower])) := by
  unfold write
  rw [_write_eq d stack address buf count verify tr hlt hal]
  simp only [commit_eq, callsCommit, OneWire.depower]
  split_ifs <;>
    simp only [payload1_calls, payload2_calls, header1_calls, List.append_assoc]

theorem write_invalid (h : address % 8 ≠ 0 ∨ 128 ≤ address) :
    write d stack address buf count verify tr = (false, tr ++ [BusCall.depower]) := by
  have hcond : address ≥ DS2431_EEPROM_SIZE ∨ address % 8 ≠ 0 := by
    simp only [DS2431_EEPROM_SIZE]; omega
  simp [write, _write, hcond, OneWire.depower]

theorem _write_invalid (h : address % 8 ≠ 0 ∨ 128 ≤ address) :
    _write d stack address buf count verify tr = (false, tr) := by
  have hcond : address ≥ DS2431_EEPROM_SIZE ∨ address % 8 ≠ 0 := by
    simp only [DS2431_EEPROM_SIZE]; omega
  simp [_write, hcond]

theorem commands_callsHeader1 (more : List BusCall) :
    commands (callsHeader1 d stack address buf count verify tr ++ BusCall.depower :: more) =
      WRITE_SCRATCHPAD :: READ_SCRATCHPAD :: commands (BusCall.depower :: more) := by
  unfold callsHeader1 stageCalls headerCalls stagedFrame selectCall
  cases d._skiprom <;> simp [commands]

end shapes

end DS2431

namespace DS2431

section commandLists

variable (d : DS2431) (stack : Nat → Nat) (address : Nat) (buf : Nat → Nat) (count : Nat)
  (verify : Bool) (tr : List BusCall)

theorem commands_header1_commit (b : Nat → Nat) (t : List BusCall) :
    commands (callsHeader1 d stack address buf count verify tr ++ callsCommit d b t ++
      [BusCall.depower]) = [WRITE_SCRATCHPAD, READ_SCRATCHPAD, COPY_SCRATCHPAD] := by
  unfold callsHeader1 callsCommit commitCalls stageCalls headerCalls stagedFrame selectCall
  cases d._skiprom <;> simp [commands]

theorem commands_payload1 :
    commands (callsPayload1 d stack address buf count verify tr ++ [BusCall.depower]) =
      [WRITE_SCRATCHPAD, READ_SCRATCHPAD] := by
  unfold callsPayload1 callsHeader1 stageCalls headerCalls payloadCalls stagedFrame selectCall
  cases d._skiprom <;> simp [commands]

theorem commands_payload1_commit (b : Nat → Nat) (t : List BusCall) :
    commands (callsPayload1 d stack address buf count verify tr ++ callsCommit d b t ++
      [BusCall.depower]) = [WRITE_SCRATCHPAD, READ_SCRATCHPAD, COPY_SCRATCHPAD] := by
  unfold callsPayload1 callsHeader1 callsCommit commitCalls stageCalls headerCalls payloadCalls
    stagedFrame selectCall
  cases d._skiprom <;> simp [commands]

theorem commands_payload2 :
    commands (callsPayload2 d stack address buf count verify tr ++ [BusCall.depower]) =
      [WRITE_SCRATCHPAD, READ_SCRATCHPAD, READ_SCRATCHPAD] := by
  unfold callsPayload2 callsHeader2 callsPayload1 callsHeader1 stageCalls headerCalls
    payloadCalls stagedFrame selectCall
  cases d._skiprom <;> simp [commands]

theorem commands_payload2_commit (b : Nat → Nat) (t : List BusCall) :
    commands (callsPayload2 d stack address buf count verify tr ++ callsCommit d b t ++
      [BusCall.depower]) =
      [WRITE_SCRATCHPAD, READ_SCRATCHPAD, READ_SCRATCHPAD, COPY_SCRATCHPAD] := by
  unfold callsPayload2 callsHeader2 callsPayload1 callsHeader1 callsCommit commitCalls
    stageCalls headerCalls payloadCalls stagedFrame selectCall
  cases d._skiprom <;> simp [commands]

/-- The commands `write` issues on a valid address. -/
theorem write_commands (hlt : address < 128) (hal : address % 8 = 0) :
    commands ((write d stack address buf count verify tr).2.drop tr.length) =
      if (header1 d stack address buf count verify tr).verify then
        if crcOk d (payload1 d stack address buf count verify tr) then
          if mismatch address buf (payload1 d stack address buf count verify tr) then
            [WRITE_SCRATCHPAD, READ_SCRATCHPAD]
          else [WRITE_SCRATCHPAD, READ_SCRATCHPAD, COPY_SCRATCHPAD]
        else if crcOk d (payload2 d stack address buf count verify tr) then
          if mismatch address buf (payload2 d stack address buf count verify tr) then
            [WRITE_SCRATCHPAD, READ_SCRATCHPAD, READ_SCRATCHPAD]
          else [WRITE_SCRATCHPAD, READ_SCRATCHPAD, READ_SCRATCHPAD, COPY_SCRATCHPAD]
        else [WRITE_SCRATCHPAD, READ_SCRATCHPAD, READ_SCRATCHPAD, COPY_SCRATCHPAD]
      else [WRITE_SCRATCHPAD, READ_SCRATCHPAD, COPY_SCRATCHPAD] := by
  rw [write_eq d stack address buf count verify tr hlt hal]
  split_ifs <;>
    simp only [List.drop_left, commands_header1_commit, commands_payload1,
      commands_payload1_commit, commands_payload2, commands_payload2_commit]

theorem mismatch_of_diff (p : Readback)
    (h : address ≠ p.echo ∨ p.data 8 ≠ bytesOf buf 8) : mismatch address buf p = true := by
  unfold mismatch
  rcases h with h | h
  · simp [Readback.echo] at h
    simp [h]
  · have hm : memcmp (fun i => p.buffer (4 + i)) buf 8 ≠ 0 := by
      intro h0
      apply h
      unfold memcmp at h0
      unfold Readback.data bytesOf
      apply List.map_congr_left
      intro i hi
      split at h0
      · rename_i x hx
        have := List.find?_some hx
        simp at this
        exact absurd h0 this
      · rename_i hx
        rw [List.find?_eq_none] at hx
        have := hx ((p.buffer (4 + i) : Int) - (buf i : Int))
          (List.mem_map.mpr ⟨i, hi, rfl⟩)
        simp at this
        omega
    simp [hm]

end commandLists

end DS2431

/-! ## The driver on the simulated chip -/

namespace Sim

open DS2431

theorem chipAfter_append (es : Nat) (tr l : List BusCall) :
    chipAfter es (tr ++ l) = l.foldl (Chip.step es) (chipAfter es tr) := by
  simp [chipAfter, List.foldl_append]

theorem step_selectCall (es : Nat) (d : DS2431) (c : Chip) :
    Chip.step es c (selectCall d) = { c with phase := Phase.command } := by
  unfold selectCall
  cases d._skiprom <;> simp [Chip.step]

theorem crcBytes_length (l : List Nat) : (crcBytes l).length = 2 := by simp [crcBytes]

theorem crcBytes_replies (l : List Nat) :
    (List.range 2).map (fun i => (crcBytes l).getD i 0xFF % 256) = crcBytes l := by
  have h : (65535 - crc16 l % 65536 &&& 255) % 256 = 65535 - crc16 l % 65536 &&& 255 := by
    apply Nat.mod_eq_of_lt
    exact lt_of_le_of_lt Nat.and_le_right (by norm_num)
  simp [crcBytes, List.range_succ, h]

theorem check_crcBytes (l : List Nat) : check_crc16 l (crcBytes l) = true := by
  have h : (65535 - crc16 l % 65536) >>> 8 % 256 = (65535 - crc16 l % 65536) >>> 8 := by
    apply Nat.mod_eq_of_lt
    rw [Nat.shiftRight_eq_div_pow]
    omega
  simp [check_crc16, crcBytes, h]

/-- Reading as many bytes as a queued list of bytes holds returns that list. -/
theorem replies_prefix (sp rest : List Nat) (hsp : ∀ x ∈ sp, x < 256) :
    (List.range sp.length).map (fun i => (sp ++ rest).getD i 0xFF % 256) = sp := by
  apply List.ext_getElem
  · simp
  · intro i h1 h2
    simp only [List.length_map, List.length_range] at h1
    simp only [List.getElem_map, List.getElem_range, List.getD_eq_getElem?_getD]
    rw [List.getElem?_append_left h1, List.getElem?_eq_getElem h1]
    simp only [Option.getD_some]
    exact Nat.mod_eq_of_lt (hsp _ (List.getElem_mem _))

theorem lowByte_mod (w : Nat) : lowByte w % 256 = lowByte w := by
  simp [lowByte]

theorem highByte_mod (w : Nat) : highByte w % 256 = highByte w := by
  simp [highByte]

theorem bytesOf_twelve (b : Nat → Nat) :
    bytesOf b 12 = b 0 :: b 1 :: b 2 :: b 3 :: bytesOf (fun i => b (4 + i)) 8 := by
  simp [bytesOf, List.range_succ]

theorem bytesOf_lt (buf : Nat → Nat) (n : Nat) (h : ∀ i, i < n → buf i < 256) :
    ∀ b ∈ bytesOf buf n, b < 256 := by
  intro b hb
  simp only [bytesOf, List.mem_map, List.mem_range] at hb
  obtain ⟨i, hi, rfl⟩ := hb
  exact h i hi

theorem memcmp_eq_zero (a b : Nat → Nat) (n : Nat) (h : bytesOf a n = bytesOf b n) :
    memcmp a b n = 0 := by
  have hz : ((List.range n).map (fun i => (a i : Int) - (b i : Int))).find?
      (fun x => x != 0) = none := by
    rw [List.find?_eq_none]
    intro x hx
    simp only [List.mem_map, List.mem_range] at hx
    obtain ⟨i, hi, rfl⟩ := hx
    have hab : a i = b i := by
      have := congrArg (fun l => l.getD i 0) h
      simpa [bytesOf, List.getD_eq_getElem?_getD, hi] using this
    simp [hab]
  simp [memcmp, hz]

section onChip

variable (es : Nat) (d : DS2431) (hd : d._ow = chipLine es)
include hd

theorem chip_stageCrc (address : Nat) (buf : Nat → Nat) (count : Nat) (tr : List BusCall) :
    stageCrc d address buf count tr = crcBytes (stagedFrame address buf count) := by
  unfold stageCrc OneWire.read_bytes
  simp only [hd, chipLine, chipAfter_append, List.foldl_cons, List.foldl_nil, step_selectCall,
    DS2431_CRC_SIZE]
  simp only [Chip.step, stagedFrame, WRITE_SCRATCHPAD]
  simp only [if_true]
  exact crcBytes_replies _

theorem chip_stage_verify (stack : Nat → Nat) (address : Nat) (buf : Nat → Nat) (count : Nat)
    (verify : Bool) (tr : List BusCall) :
    (stage d stack address buf count verify tr).verify = verify := by
  rw [stage_verify, chip_stageCrc es d hd, hd]
  simp [chipLine, check_crcBytes]

theorem chip_stage (stack : Nat → Nat) (address : Nat) (buf : Nat → Nat) (count : Nat)
    (verify : Bool) (tr : List BusCall) :
    chipAfter es (stage d stack address buf count verify tr).tr =
      { chipAfter es tr with
        phase := Phase.busy, scratchpad := bytesOf buf count, ta1 := lowByte address,
        ta2 := highByte address, out := [] } := by
  rw [stage_tr, chip_stageCrc es d hd, stageCalls, chipAfter_append]
  simp only [List.foldl_cons, List.foldl_nil, step_selectCall]
  simp only [Chip.step, stagedFrame, WRITE_SCRATCHPAD]
  simp [crcBytes]

theorem chip_readHeader (s : LoopState) (h0 : s.buffer 0 = READ_SCRATCHPAD) :
    (readHeader d s).buffer 1 = (chipAfter es s.tr).ta1 % 256 ∧
    (readHeader d s).buffer 2 = (chipAfter es s.tr).ta2 % 256 ∧
    (readHeader d s).buffer 3 = es % 256 ∧
    chipAfter es (readHeader d s).tr =
      { chipAfter es s.tr with
        phase := Phase.busy
        out := (chipAfter es s.tr).scratchpad ++
          crcBytes (0xAA :: (chipAfter es s.tr).ta1 :: (chipAfter es s.tr).ta2 :: es ::
            (chipAfter es s.tr).scratchpad) } := by
  have hout : (chipAfter es (s.tr ++ [BusCall.reset, selectCall d,
      BusCall.write (s.buffer 0) 1])) =
      { chipAfter es s.tr with
        phase := Phase.busy
        out := (chipAfter es s.tr).ta1 :: (chipAfter es s.tr).ta2 :: es ::
          ((chipAfter es s.tr).scratchpad ++
          crcBytes (0xAA :: (chipAfter es s.tr).ta1 :: (chipAfter es s.tr).ta2 :: es ::
            (chipAfter es s.tr).scratchpad)) } := by
    rw [chipAfter_append, h0]
    simp only [List.foldl_cons, List.foldl_nil, step_selectCall]
    simp [Chip.step, READ_SCRATCHPAD]
  have hb : ∀ j, (readHeader d s).buffer j =
      store s.buffer 1 [(chipAfter es s.tr).ta1 % 256, (chipAfter es s.tr).ta2 % 256,
        es % 256] j := by
    intro j
    simp only [readHeader, startTransmission_eq, OneWire.write, OneWire.read_bytes, hd, chipLine,
      List.append_assoc, List.cons_append, List.nil_append, hout, DS2431_CMD_SIZE]
    simp [List.range_succ]
  refine ⟨?_, ?_, ?_, ?_⟩
  · rw [hb]; simp [store]
  · rw [hb]; simp [store]
  · rw [hb]; simp [store]
  · have e : s.tr ++ [BusCall.reset, selectCall d, BusCall.write (s.buffer 0) 1,
        BusCall.read_bytes [(readHeader d s).buffer 1, (readHeader d s).buffer 2,
          (readHeader d s).buffer 3]] =
        (s.tr ++ [BusCall.reset, selectCall d, BusCall.write (s.buffer 0) 1]) ++
          [BusCall.read_bytes [(readHeader d s).buffer 1, (readHeader d s).buffer 2,
            (readHeader d s).buffer 3]] := by simp
    rw [readHeader_tr, e, chipAfter_append, hout]
    simp [Chip.step]

theorem chip_readHeader_verify (s : LoopState) (h0 : s.buffer 0 = READ_SCRATCHPAD) :
    (readHeader d s).verify = (decide (es % 256 ≠ 7) || s.verify) := by
  have h3 := (chip_readHeader es d hd s h0).2.2.1
  have hv : (readHeader d s).verify =
      if (readHeader d s).buffer 3 ≠ DS2431_PF_MASK then true else s.verify := rfl
  rw [hv, h3]
  by_cases h : es % 256 = 7 <;> simp [h, DS2431_PF_MASK]

theorem chip_readPayload (h : LoopState) (sp x : List Nat) (hsp : ∀ b ∈ sp, b < 256)
    (hout : (chipAfter es h.tr).out = sp ++ crcBytes x) :
    (readPayload d sp.length h).data sp.length = sp ∧
    (readPayload d sp.length h).crc16 = crcBytes x ∧
    chipAfter es (readPayload d sp.length h).tr = { chipAfter es h.tr with out := [] } := by
  have hdata : (d._ow.read_bytes sp.length h.tr).1 = sp := by
    simp only [OneWire.read_bytes, hd, chipLine, hout]
    exact replies_prefix sp _ hsp
  have e : (readPayload d sp.length h).data sp.length = (d._ow.read_bytes sp.length h.tr).1 := by
    simp only [Readback.data, readPayload, bytesOf, OneWire.read_bytes, store, List.length_map,
      List.length_range]
    apply List.map_congr_left
    intro i hi
    have hi := List.mem_range.mp hi
    rw [if_pos (by omega)]
    simp [List.getD_eq_getElem?_getD, hi]
  have htr1 : (d._ow.read_bytes sp.length h.tr).2 = h.tr ++ [BusCall.read_bytes sp] := by
    have : (d._ow.read_bytes sp.length h.tr).2 =
        h.tr ++ [BusCall.read_bytes (d._ow.read_bytes sp.length h.tr).1] := rfl
    rw [this, hdata]
  have hchip1 : chipAfter es (h.tr ++ [BusCall.read_bytes sp]) =
      { chipAfter es h.tr with out := crcBytes x } := by
    rw [chipAfter_append]
    simp [Chip.step, hout]
  have hcrc : (readPayload d sp.length h).crc16 = crcBytes x := by
    have : (readPayload d sp.length h).crc16 =
        (d._ow.read_bytes DS2431_CRC_SIZE (d._ow.read_bytes sp.length h.tr).2).1 := rfl
    rw [this, htr1]
    simp only [OneWire.read_bytes, hd, chipLine, hchip1, DS2431_CRC_SIZE]
    exact crcBytes_replies _
  refine ⟨by rw [e, hdata], hcrc, ?_⟩
  rw [readPayload_tr, e, hdata, hcrc, payloadCalls]
  have e2 : h.tr ++ [BusCall.read_bytes sp, BusCall.read_bytes (crcBytes x)] =
      (h.tr ++ [BusCall.read_bytes sp]) ++ [BusCall.read_bytes (crcBytes x)] := by simp
  rw [e2, chipAfter_append, hchip1]
  simp [Chip.step, crcBytes]

theorem chip_commit (b : Nat → Nat) (t : List BusCall)
    (h1 : b 1 = (chipAfter es t).ta1) (h2 : b 2 = (chipAfter es t).ta2) (h3 : b 3 = es) :
    ackByte d b t = DS2431_WRITE_MASK ∧
    chipAfter es (t ++ (callsCommit d b t ++ [BusCall.depower])) =
      { chipAfter es t with
        phase := Phase.busy
        memory := fun j =>
          if (chipAfter es t).ta1 + 256 * (chipAfter es t).ta2 ≤ j ∧
              j < (chipAfter es t).ta1 + 256 * (chipAfter es t).ta2 +
                (chipAfter es t).scratchpad.length then
            (chipAfter es t).scratchpad.getD
              (j - ((chipAfter es t).ta1 + 256 * (chipAfter es t).ta2)) 0
          else (chipAfter es t).memory j
        out := [] } := by
  have hc : chipAfter es (t ++ [BusCall.reset, selectCall d,
      BusCall.write_bytes [COPY_SCRATCHPAD, b 1, b 2, b 3] 1]) =
      { chipAfter es t with
        phase := Phase.busy
        memory := fun j =>
          if (chipAfter es t).ta1 + 256 * (chipAfter es t).ta2 ≤ j ∧
              j < (chipAfter es t).ta1 + 256 * (chipAfter es t).ta2 +
                (chipAfter es t).scratchpad.length then
            (chipAfter es t).scratchpad.getD
              (j - ((chipAfter es t).ta1 + 256 * (chipAfter es t).ta2)) 0
          else (chipAfter es t).memory j
        out := [0xAA] } := by
    rw [chipAfter_append]
    simp only [List.foldl_cons, List.foldl_nil, step_selectCall]
    simp [Chip.step, COPY_SCRATCHPAD, h1, h2, h3]
  have hack : ackByte d b t = DS2431_WRITE_MASK := by
    simp only [ackByte, hd, chipLine, hc]
    simp [DS2431_WRITE_MASK]
  refine ⟨hack, ?_⟩
  have e : t ++ (callsCommit d b t ++ [BusCall.depower]) =
      (t ++ [BusCall.reset, selectCall d,
        BusCall.write_bytes [COPY_SCRATCHPAD, b 1, b 2, b 3] 1]) ++
        [BusCall.read (ackByte d b t), BusCall.depower] := by
    simp [callsCommit, commitCalls]
  rw [e, chipAfter_append, hc]
  simp [Chip.step]

theorem chip_header1 (hes : es < 256) (stack : Nat → Nat) (address : Nat) (buf : Nat → Nat)
    (count : Nat) (verify : Bool) (tr : List BusCall) :
    (header1 d stack address buf count verify tr).verify = (decide (es ≠ 7) || verify) ∧
    (header1 d stack address buf count verify tr).buffer 0 = READ_SCRATCHPAD ∧
    (header1 d stack address buf count verify tr).buffer 1 = lowByte address ∧
    (header1 d stack address buf count verify tr).buffer 2 = highByte address ∧
    (header1 d stack address buf count verify tr).buffer 3 = es ∧
    chipAfter es (header1 d stack address buf count verify tr).tr =
      { chipAfter es tr with
        phase := Phase.busy, scratchpad := bytesOf buf count, ta1 := lowByte address,
        ta2 := highByte address
        out := bytesOf buf count ++
          crcBytes (0xAA :: lowByte address :: highByte address :: es :: bytesOf buf count) } := by
  have h0 := stage_buffer_zero d stack address buf count verify tr
  have hs := chip_stage es d hd stack address buf count verify tr
  have hh := chip_readHeader es d hd (stage d stack address buf count verify tr) h0
  have hv := chip_readHeader_verify es d hd (stage d stack address buf count verify tr) h0
  rw [chip_stage_verify es d hd, Nat.mod_eq_of_lt hes] at hv
  rw [hs] at hh
  dsimp only at hh
  simp only [lowByte_mod, highByte_mod, Nat.mod_eq_of_lt hes] at hh
  refine ⟨hv, ?_, hh.1, hh.2.1, hh.2.2.1, hh.2.2.2⟩
  rw [header1, readHeader_buffer_zero, h0]

theorem chip_payload1 (hes : es < 256) (stack : Nat → Nat) (address : Nat) (buf : Nat → Nat)
    (verify : Bool) (tr : List BusCall) (hlt : address < 128)
    (hbuf : ∀ i, i < 8 → buf i < 256) :
    crcOk d (payload1 d stack address buf 8 verify tr) = true ∧
    mismatch address buf (payload1 d stack address buf 8 verify tr) = decide (es ≠ 7) ∧
    (payload1 d stack address buf 8 verify tr).buffer 1 = lowByte address ∧
    (payload1 d stack address buf 8 verify tr).buffer 2 = highByte address ∧
    (payload1 d stack address buf 8 verify tr).buffer 3 = es ∧
    chipAfter es (payload1 d stack address buf 8 verify tr).tr =
      { chipAfter es tr with
        phase := Phase.busy, scratchpad := bytesOf buf 8, ta1 := lowByte address,
        ta2 := highByte address, out := [] } := by
  obtain ⟨-, hb0, hb1, hb2, hb3, hchip⟩ :=
    chip_header1 es d hd hes stack address buf 8 verify tr
  have hlen : (bytesOf buf 8).length = 8 := bytesOf_length _ _
  have hp := chip_readPayload es d hd (header1 d stack address buf 8 verify tr) (bytesOf buf 8)
    (0xAA :: lowByte address :: highByte address :: es :: bytesOf buf 8)
    (bytesOf_lt buf 8 hbuf) (by rw [hchip])
  rw [hlen] at hp
  obtain ⟨hdata, hcrc, hchip2⟩ := hp
  have l0 := payload1_buffer_low d stack address buf 8 verify tr 0 (by omega)
  have l1 := payload1_buffer_low d stack address buf 8 verify tr 1 (by omega)
  have l2 := payload1_buffer_low d stack address buf 8 verify tr 2 (by omega)
  have l3 := payload1_buffer_low d stack address buf 8 verify tr 3 (by omega)
  rw [hb0] at l0
  rw [hb1] at l1
  rw [hb2] at l2
  rw [hb3] at l3
  have hdata' : bytesOf (fun i => (payload1 d stack address buf 8 verify tr).buffer (4 + i)) 8 =
      bytesOf buf 8 := hdata
  refine ⟨?_, ?_, l1, l2, l3, ?_⟩
  · have hc : (payload1 d stack address buf 8 verify tr).crc16 =
        crcBytes (0xAA :: lowByte address :: highByte address :: es :: bytesOf buf 8) := hcrc
    rw [crcOk, bytesOf_twelve, l0, l1, l2, l3, hdata', hc, hd]
    simp only [chipLine, READ_SCRATCHPAD]
    exact check_crcBytes _
  · have haddr : address = (highByte address <<< 8) + lowByte address := by
      simp only [highByte, lowByte, Nat.shiftLeft_eq, Nat.shiftRight_eq_div_pow]
      omega
    have hm := memcmp_eq_zero _ _ 8 hdata'
    unfold mismatch
    rw [l1, l2, l3, hm]
    by_cases h7 : es = 7
    · simp [h7, DS2431_PF_MASK, ← haddr]
    · simp [h7, DS2431_PF_MASK, ← haddr]
  · have : chipAfter es (payload1 d stack address buf 8 verify tr).tr =
        { chipAfter es (header1 d stack address buf 8 verify tr).tr with out := [] } := hchip2
    rw [this, hchip]

theorem chip_write_ok (h7 : es = 7) (stack : Nat → Nat) (address : Nat) (buf : Nat → Nat)
    (verify : Bool) (tr : List BusCall) (hlt : address < 128) (hal : address % 8 = 0)
    (hbuf : ∀ i, i < 8 → buf i < 256) :
    (write d stack address buf 8 verify tr).1 = true ∧
    ∀ i, i < 8 → (chipAfter es (write d stack address buf 8 verify tr).2).memory (address + i) =
      buf i := by
  have hes : es < 256 := by omega
  obtain ⟨hv, -, hb1, hb2, hb3, hchip⟩ := chip_header1 es d hd hes stack address buf 8 verify tr
  obtain ⟨hcrc, hmis, pb1, pb2, pb3, pchip⟩ :=
    chip_payload1 es d hd hes stack address buf verify tr hlt hbuf
  have hta : lowByte address + 256 * highByte address = address := by
    simp only [highByte, lowByte, Nat.shiftRight_eq_div_pow]
    omega
  have hmem : ∀ i, i < 8 →
      (if address ≤ address + i ∧ address + i < address + (bytesOf buf 8).length then
        (bytesOf buf 8).getD (address + i - address) 0
      else (chipAfter es tr).memory (address + i)) = buf i := by
    intro i hi
    rw [bytesOf_length, if_pos (by omega)]
    simp [bytesOf, List.getD_eq_getElem?_getD, hi]
  have hmis' : mismatch address buf (payload1 d stack address buf 8 verify tr) = false := by
    rw [hmis]; simp [h7]
  rw [write_eq d stack address buf 8 verify tr hlt hal]
  cases verify
  · have hv' : (header1 d stack address buf 8 false tr).verify = false := by
      rw [hv]; simp [h7]
    obtain ⟨hack, hfin⟩ := chip_commit es d hd (header1 d stack address buf 8 false tr).buffer
      (header1 d stack address buf 8 false tr).tr (by rw [hb1, hchip]) (by rw [hb2, hchip])
      hb3
    simp only [hv', Bool.false_eq_true, if_false, hack, decide_True, true_and]
    intro i hi
    have hW : tr ++ (callsHeader1 d stack address buf 8 false tr ++
        callsCommit d (header1 d stack address buf 8 false tr).buffer
          (header1 d stack address buf 8 false tr).tr ++ [BusCall.depower]) =
        (header1 d stack address buf 8 false tr).tr ++
          (callsCommit d (header1 d stack address buf 8 false tr).buffer
            (header1 d stack address buf 8 false tr).tr ++ [BusCall.depower]) := by
      rw [header1_calls]
      simp only [List.append_assoc]
    rw [hW, hfin, hchip]
    simp only [hta]
    exact hmem i hi
  · have hv' : (header1 d stack address buf 8 true tr).verify = true := by
      rw [hv]; simp
    obtain ⟨hack, hfin⟩ := chip_commit es d hd (payload1 d stack address buf 8 true tr).buffer
      (payload1 d stack address buf 8 true tr).tr (by rw [pb1, pchip]) (by rw [pb2, pchip])
      pb3
    simp only [hv', hcrc, hmis', Bool.false_eq_true, if_false, if_true, hack, decide_True,
      true_and]
    intro i hi
    have hW : tr ++ (callsPayload1 d stack address buf 8 true tr ++
        callsCommit d (payload1 d stack address buf 8 true tr).buffer
          (payload1 d stack address buf 8 true tr).tr ++ [BusCall.depower]) =
        (payload1 d stack address buf 8 true tr).tr ++
          (callsCommit d (payload1 d stack address buf 8 true tr).buffer
            (payload1 d stack address buf 8 true tr).tr ++ [BusCall.depower]) := by
      rw [payload1_calls]
      simp only [List.append_assoc]
    rw [hW, hfin, pchip]
    simp only [hta]
    exact hmem i hi

theorem chip_write_bad (hes : es < 256) (h7 : es ≠ 7) (stack : Nat → Nat) (address : Nat)
    (buf : Nat → Nat) (verify : Bool) (tr : List BusCall) (hlt : address < 128)
    (hal : address % 8 = 0) (hbuf : ∀ i, i < 8 → buf i < 256) :
    (write d stack address buf 8 verify tr).1 = false := by
  obtain ⟨hv, -⟩ := chip_header1 es d hd hes stack address buf 8 verify tr
  obtain ⟨hcrc, hmis, -⟩ := chip_payload1 es d hd hes stack address buf verify tr hlt hbuf
  have hv' : (header1 d stack address buf 8 verify tr).verify = true := by
    rw [hv]; simp [h7]
  have hmis' : mismatch address buf (payload1 d stack address buf 8 verify tr) = true := by
    rw [hmis]; simp [h7]
  rw [write_eq d stack address buf 8 verify tr hlt hal]
  simp [hv', hcrc, hmis']

theorem chip_readBytesLoop (n : Nat) (t : List BusCall) :
    (readBytesLoop d n t).1 =
      (List.range n).map (fun i => (chipAfter es t).out.getD i 0xFF % 256) := by
  induction n generalizing t with
  | zero => simp [readBytesLoop]
  | succ n ih =>
    have hstep : chipAfter es (d._ow.read t).2 =
        { chipAfter es t with out := (chipAfter es t).out.drop 1 } := by
      simp only [OneWire.read, chipAfter_append, List.foldl_cons, List.foldl_nil, Chip.step]
    simp only [readBytesLoop]
    rw [ih, hstep, List.range_succ_eq_map, List.map_cons, List.map_map]
    simp only [OneWire.read, hd, chipLine]
    congr 1
    apply List.map_congr_left
    intro i _
    simp only [Function.comp, List.getD_eq_getElem?_getD, List.getElem?_drop]
    rw [Nat.add_comm 1 i]

theorem chip_read (address len : Nat) (W : List BusCall) (hlt : address < 256)
    (hlen : address + len ≤ 128) :
    (read d address len W).1 =
      (List.range len).map (fun i => (chipAfter es W).memory (address + i) % 256) := by
  have hlo : lowByte address = address := by simp only [lowByte]; omega
  have hhi : highByte address = 0 := by
    simp only [highByte, Nat.shiftRight_eq_div_pow]; omega
  have hc : chipAfter es (W ++ [BusCall.reset, selectCall d, BusCall.write READ_MEMORY 1,
      BusCall.write address 1, BusCall.write 0 1]) =
      { chipAfter es W with
        phase := Phase.busy
        out := (List.range (128 - address)).map
          (fun i => (chipAfter es W).memory (address + i)) } := by
    rw [chipAfter_append]
    simp only [List.foldl_cons, List.foldl_nil, step_selectCall]
    simp [Chip.step, READ_MEMORY]
  simp only [DS2431.read, startTransmission_eq, OneWire.write, List.append_assoc, List.cons_append,
    List.nil_append, hlo, hhi]
  rw [chip_readBytesLoop es d hd, hc]
  apply List.map_congr_left
  intro i hi
  have hi := List.mem_range.mp hi
  have hi' : i < 128 - address := by omega
  simp [List.getD_eq_getElem?_getD, hi']

end onChip

end Sim

/-! ## The claims -/

namespace DS2431

open Sim

/-- C1 (code diverges): on a line where verification is in effect and the CRC check
of the read-back fails in both passes, `write` does not give up: it sends the
copy-scratchpad command and, the acknowledgement being 0xAA, returns true. -/
theorem write_commits_after_crc_failures :
    (header1 (driver badReadbackCrc) zeros 0 row 8 true []).verify = true ∧
    crcOk (driver badReadbackCrc) (payload1 (driver badReadbackCrc) zeros 0 row 8 true []) = false ∧
    crcOk (driver badReadbackCrc) (payload2 (driver badReadbackCrc) zeros 0 row 8 true []) = false ∧
    write (driver badReadbackCrc) zeros 0 row 8 true [] =
      (true,
        [BusCall.reset, BusCall.skip,
          BusCall.write_bytes [0x0F, 0, 0, 1, 2, 3, 4, 5, 6, 7, 8] 1, BusCall.read_bytes [63, 47],
          BusCall.reset, BusCall.skip, BusCall.write 0xAA 1, BusCall.read_bytes [0, 0, 7],
          BusCall.read_bytes [1, 2, 3, 4, 5, 6, 7, 8], BusCall.read_bytes [0, 0],
          BusCall.reset, BusCall.skip, BusCall.write 0xAA 1, BusCall.read_bytes [0, 0, 7],
          BusCall.read_bytes [1, 2, 3, 4, 5, 6, 7, 8], BusCall.read_bytes [0, 0],
          BusCall.reset, BusCall.skip, BusCall.write_bytes [0x55, 0, 0, 7] 1, BusCall.read 0xAA,
          BusCall.depower]) := by
  decide!

/-- C2: when a read-back made for verification (the first pass's, or the second's
after a CRC failure in the first) passes the CRC check and its address echo differs
from the requested address or its 8 payload bytes differ from the caller's buffer,
`write` returns false and issues no copy-scratchpad command. -/
theorem write_fails_on_readback_mismatch (d : DS2431) (stack : Nat → Nat) (address : Nat)
    (buf : Nat → Nat) (verify : Bool) (tr : List BusCall) (p : Readback)
    (hlt : address < 128) (hal : address % 8 = 0)
    (hp : (p = payload1 d stack address buf 8 verify tr ∧
            (header1 d stack address buf 8 verify tr).verify = true) ∨
          (p = payload2 d stack address buf 8 verify tr ∧
            (header1 d stack address buf 8 verify tr).verify = true ∧
            crcOk d (payload1 d stack address buf 8 verify tr) = false))
    (hcrc : crcOk d p = true)
    (hdiff : address ≠ p.echo ∨ p.data 8 ≠ bytesOf buf 8) :
    (write d stack address buf 8 verify tr).1 = false ∧
      COPY_SCRATCHPAD ∉ commands ((write d stack address buf 8 verify tr).2.drop tr.length) := by
  have hm := mismatch_of_diff address buf p hdiff
  rw [write_commands d stack address buf 8 verify tr hlt hal,
    write_eq d stack address buf 8 verify tr hlt hal]
  rcases hp with ⟨rfl, hv⟩ | ⟨rfl, hv, h1⟩
  · simp [hv, hcrc, hm, WRITE_SCRATCHPAD, READ_SCRATCHPAD, COPY_SCRATCHPAD]
  · simp [hv, hcrc, hm, h1, WRITE_SCRATCHPAD, READ_SCRATCHPAD, COPY_SCRATCHPAD]

/-- C2 at a concrete input: a write of 1..8 at address 0 whose read-back delivers 9 for
the last byte, with a matching CRC. -/
theorem write_fails_on_readback_mismatch_witness :
    (write (driver badPayload) zeros 0 row 8 true []).1 = false ∧
      COPY_SCRATCHPAD ∉
        commands ((write (driver badPayload) zeros 0 row 8 true []).2.drop
          ([] : List BusCall).length) :=
  write_fails_on_readback_mismatch (driver badPayload) zeros 0 row true []
    (payload1 (driver badPayload) zeros 0 row 8 true [])
    (by decide) (by decide) (Or.inl ⟨rfl, by decide⟩) (by decide)
    (Or.inr (by decide))

/-- C3 (as stated, refuted): with the misaligned address 1 the public `write`
returns false but does make a call on the bus, the closing `depower`. -/
theorem invalid_address_still_depowers :
    ¬ ((write (driver (stuck 0xAA)) zeros 1 row 8 false []).1 = false ∧
        (write (driver (stuck 0xAA)) zeros 1 row 8 false []).2 = []) := by
  decide

/-- C3 (amended): for an address that is not a multiple of 8 or is at least 128,
the public `write` returns false and the one call it makes on the bus is the closing
`depower`; `_write` returns false and makes no call at all. -/
theorem write_invalid_address (d : DS2431) (stack : Nat → Nat) (address : Nat)
    (buf : Nat → Nat) (count : Nat) (verify : Bool) (tr : List BusCall)
    (h : address % 8 ≠ 0 ∨ 128 ≤ address) :
    write d stack address buf count verify tr = (false, tr ++ [BusCall.depower]) ∧
      _write d stack address buf count verify tr = (false, tr) :=
  ⟨write_invalid d stack address buf count verify tr h,
    _write_invalid d stack address buf count verify tr h⟩

/-- C3 (amended) at a concrete input: the misaligned address 13. -/
theorem write_invalid_address_witness :
    (13 % 8 ≠ 0 ∨ 128 ≤ 13) ∧
      write (driver (stuck 0xAA)) zeros 13 row 8 true [] = (false, [] ++ [BusCall.depower]) ∧
      _write (driver (stuck 0xAA)) zeros 13 row 8 true [] = (false, []) :=
  ⟨by decide, write_invalid_address (driver (stuck 0xAA)) zeros 13 row 8 true [] (by decide)⟩

end DS2431

namespace DS2431

open Sim

/-- When the CRC read after the write-scratchpad frame does not match the frame,
`write` called with `verify = false` behaves as it does with `verify = true`, and
the calls it adds to the bus start with the write-scratchpad exchange followed by a
full read-back; when that first read-back passes its CRC check, any failing
comparison of lines 116-126 makes `write` return false. -/
theorem write_forces_verify_on_stage_crc_mismatch (d : DS2431) (stack : Nat → Nat)
    (address : Nat) (buf : Nat → Nat) (count : Nat) (tr : List BusCall)
    (hlt : address < 128) (hal : address % 8 = 0)
    (hcrc : d._ow.check_crc16 (stagedFrame address buf count)
      (stageCrc d address buf count tr) = false) :
    write d stack address buf count false tr = write d stack address buf count true tr ∧
    (crcOk d (payload1 d stack address buf count false tr) = true →
      mismatch address buf (payload1 d stack address buf count false tr) = true →
      (write d stack address buf count false tr).1 = false) ∧
    ∃ ta1 ta2 es data crc more,
      (write d stack address buf count false tr).2 =
        tr ++ (stageCalls d address buf count (stageCrc d address buf count tr) ++
          headerCalls d ta1 ta2 es ++ payloadCalls data crc ++ more) ∧
      data.length = count ∧ crc.length = 2 ∧
      commands (stageCalls d address buf count (stageCrc d address buf count tr) ++
          headerCalls d ta1 ta2 es ++ payloadCalls data crc ++ [BusCall.depower]) =
        [WRITE_SCRATCHPAD, READ_SCRATCHPAD] := by
  have hs : stage d stack address buf count false tr = stage d stack address buf count true tr := by
    have h1 := stage_verify d stack address buf count false tr
    have h2 := stage_verify d stack address buf count true tr
    have h3 := stage_buffer_verify d stack address buf count false true tr
    have h4 := stage_tr d stack address buf count false tr
    have h5 := stage_tr d stack address buf count true tr
    rw [hcrc] at h1 h2
    cases hA : stage d stack address buf count false tr
    cases hB : stage d stack address buf count true tr
    rw [hA] at h1 h3 h4
    rw [hB] at h2 h3 h5
    simp only [Bool.not_false, Bool.true_or] at h1 h2
    simp only at h1 h2 h3 h4 h5
    rw [h1, h2, h3, h4, h5]
  have hv : (header1 d stack address buf count false tr).verify = true := by
    rw [header1]
    apply readHeader_verify_of_verify
    rw [stage_verify, hcrc]
    rfl
  refine ⟨?_, ?_, ?_⟩
  · simp only [write, _write, hs]
  · intro hc hm
    rw [write_eq d stack address buf count false tr hlt hal]
    simp [hv, hc, hm]
  · refine ⟨(header1 d stack address buf count false tr).buffer 1,
      (header1 d stack address buf count false tr).buffer 2,
      (header1 d stack address buf count false tr).buffer 3,
      (payload1 d stack address buf count false tr).data count,
      (payload1 d stack address buf count false tr).crc16, ?_⟩
    have hcmd := commands_payload1 d stack address buf count false tr
    simp only [callsPayload1, callsHeader1] at hcmd
    have hlen : ((payload1 d stack address buf count false tr).data count).length = count :=
      bytesOf_length _ _
    have hcl : (payload1 d stack address buf count false tr).crc16.length = 2 :=
      readPayload_crc_length _ _ _
    rw [write_eq d stack address buf count false tr hlt hal]
    simp only [hv, if_true]
    split_ifs
    · exact ⟨[BusCall.depower], by simp [callsPayload1, callsHeader1], hlen, hcl, hcmd⟩
    · exact ⟨callsCommit d (payload1 d stack address buf count false tr).buffer
        (payload1 d stack address buf count false tr).tr ++ [BusCall.depower],
        by simp [callsPayload1, callsHeader1], hlen, hcl, hcmd⟩
    · exact ⟨headerCalls d ((header2 d stack address buf count false tr).buffer 1)
          ((header2 d stack address buf count false tr).buffer 2)
          ((header2 d stack address buf count false tr).buffer 3) ++
        payloadCalls ((payload2 d stack address buf count false tr).data count)
          (payload2 d stack address buf count false tr).crc16 ++ [BusCall.depower],
        by simp [callsPayload2, callsHeader2, callsPayload1, callsHeader1], hlen, hcl, hcmd⟩
    · exact ⟨headerCalls d ((header2 d stack address buf count false tr).buffer 1)
          ((header2 d stack address buf count false tr).buffer 2)
          ((header2 d stack address buf count false tr).buffer 3) ++
        payloadCalls ((payload2 d stack address buf count false tr).data count)
          (payload2 d stack address buf count false tr).crc16 ++
        callsCommit d (payload2 d stack address buf count false tr).buffer
          (payload2 d stack address buf count false tr).tr ++ [BusCall.depower],
        by simp [callsPayload2, callsHeader2, callsPayload1, callsHeader1], hlen, hcl, hcmd⟩
    · exact ⟨headerCalls d ((header2 d stack address buf count false tr).buffer 1)
          ((header2 d stack address buf count false tr).buffer 2)
          ((header2 d stack address buf count false tr).buffer 3) ++
        payloadCalls ((payload2 d stack address buf count false tr).data count)
          (payload2 d stack address buf count false tr).crc16 ++
        callsCommit d (payload2 d stack address buf count false tr).buffer
          (payload2 d stack address buf count false tr).tr ++ [BusCall.depower],
        by simp [callsPayload2, callsHeader2, callsPayload1, callsHeader1], hlen, hcl, hcmd⟩

/-- C4 (code diverges): with the CRC of the write-scratchpad frame wrong and the
caller's `verify` false, verification is forced and the scratchpad is read back in
full; on the line whose read-back CRC is right the comparison runs and `write`
returns false without a copy-scratchpad command.  On the line whose read-back CRC
is wrong in both passes the payload read back (all 9) differs from the caller's
1..8, yet no pass reaches the comparison: the copy-scratchpad command is sent and
`write` returns true. -/
theorem forced_verify_commits_without_comparison :
    check_crc16 (stagedFrame 0 row 8) (stageCrc (driver noisyStageCrc) 0 row 8 []) = false ∧
    crcOk (driver noisyStageCrc) (payload1 (driver noisyStageCrc) zeros 0 row 8 false []) =
      true ∧
    write (driver noisyStageCrc) zeros 0 row 8 false [] =
      (false,
        [BusCall.reset, BusCall.skip,
          BusCall.write_bytes [0x0F, 0, 0, 1, 2, 3, 4, 5, 6, 7, 8] 1, BusCall.read_bytes [0, 0],
          BusCall.reset, BusCall.skip, BusCall.write 0xAA 1, BusCall.read_bytes [0, 0, 7],
          BusCall.read_bytes [9, 9, 9, 9, 9, 9, 9, 9], BusCall.read_bytes [210, 44],
          BusCall.depower]) ∧
    check_crc16 (stagedFrame 0 row 8) (stageCrc (driver noisyAllCrc) 0 row 8 []) = false ∧
    crcOk (driver noisyAllCrc) (payload1 (driver noisyAllCrc) zeros 0 row 8 false []) = false ∧
    crcOk (driver noisyAllCrc) (payload2 (driver noisyAllCrc) zeros 0 row 8 false []) = false ∧
    mismatch 0 row (payload1 (driver noisyAllCrc) zeros 0 row 8 false []) = true ∧
    mismatch 0 row (payload2 (driver noisyAllCrc) zeros 0 row 8 false []) = true ∧
    write (driver noisyAllCrc) zeros 0 row 8 false [] =
      (true,
        [BusCall.reset, BusCall.skip,
          BusCall.write_bytes [0x0F, 0, 0, 1, 2, 3, 4, 5, 6, 7, 8] 1, BusCall.read_bytes [0, 0],
          BusCall.reset, BusCall.skip, BusCall.write 0xAA 1, BusCall.read_bytes [0, 0, 7],
          BusCall.read_bytes [9, 9, 9, 9, 9, 9, 9, 9], BusCall.read_bytes [0, 0],
          BusCall.reset, BusCall.skip, BusCall.write 0xAA 1, BusCall.read_bytes [0, 0, 7],
          BusCall.read_bytes [9, 9, 9, 9, 9, 9, 9, 9], BusCall.read_bytes [0, 0],
          BusCall.reset, BusCall.skip, BusCall.write_bytes [0x55, 0, 0, 7] 1, BusCall.read 0xAA,
          BusCall.depower]) := by
  decide!

theorem write_true_tail (d : DS2431) (stack : Nat → Nat) (address : Nat)
    (buf : Nat → Nat) (count : Nat) (verify : Bool) (tr : List BusCall)
    (h : (write d stack address buf count verify tr).1 = true) :
    ∃ pre ta1 ta2 es,
      (write d stack address buf count verify tr).2 =
        tr ++ (pre ++ commitCalls d ta1 ta2 es DS2431_WRITE_MASK ++ [BusCall.depower]) := by
  by_cases hbad : address % 8 ≠ 0 ∨ 128 ≤ address
  · rw [write_invalid d stack address buf count verify tr hbad] at h
    simp at h
  · have hlt : address < 128 := by omega
    have hal : address % 8 = 0 := by omega
    rw [write_eq d stack address buf count verify tr hlt hal] at h ⊢
    simp only [callsCommit]
    split_ifs at h ⊢
    all_goals
      simp only [decide_eq_true_eq] at h
      rw [h]
      exact ⟨_, _, _, _, rfl⟩

/-- C5: `write` returns true only if the last calls it made are the copy-scratchpad
frame, one `read()` that delivered 0xAA, and the closing `depower`; and whenever its
calls end with a copy-scratchpad exchange whose `read()` delivered anything other
than 0xAA, it returns false. -/
theorem write_true_only_on_ack (d : DS2431) (stack : Nat → Nat) (address : Nat)
    (buf : Nat → Nat) (count : Nat) (verify : Bool) (tr : List BusCall) :
    ((write d stack address buf count verify tr).1 = true →
      ∃ pre ta1 ta2 es,
        (write d stack address buf count verify tr).2 =
          tr ++ (pre ++ commitCalls d ta1 ta2 es DS2431_WRITE_MASK ++ [BusCall.depower])) ∧
    (∀ pre ta1 ta2 es ack,
      (write d stack address buf count verify tr).2 =
        tr ++ (pre ++ commitCalls d ta1 ta2 es ack ++ [BusCall.depower]) →
      ack ≠ DS2431_WRITE_MASK →
      (write d stack address buf count verify tr).1 = false) := by
  refine ⟨write_true_tail d stack address buf count verify tr, ?_⟩
  intro pre ta1 ta2 es ack htr hack
  by_contra hne
  have htrue : (write d stack address buf count verify tr).1 = true := by
    simpa using hne
  obtain ⟨pre', a, b, e, h'⟩ := write_true_tail d stack address buf count verify tr htrue
  rw [htr] at h'
  have h2 := congrArg List.reverse (List.append_cancel_left h')
  simp only [commitCalls, List.reverse_append, List.reverse_cons, List.reverse_nil,
    List.nil_append, List.cons_append, List.singleton_append, List.cons.injEq,
    BusCall.read.injEq, true_and] at h2
  exact hack h2.1

/-- C5 at concrete inputs: lines stuck on 0xAA and on 0x55. -/
theorem write_true_only_on_ack_witness :
    (write (driver (stuck 0xAA)) zeros 0 row 8 true []).1 = true ∧
    (write (driver (stuck 0x55)) zeros 0 row 8 true []).1 = false ∧
    ∃ pre ta1 ta2 es,
      (write (driver (stuck 0xAA)) zeros 0 row 8 true []).2 =
        [] ++ (pre ++ commitCalls (driver (stuck 0xAA)) ta1 ta2 es DS2431_WRITE_MASK ++
          [BusCall.depower]) :=
  ⟨by decide!, by decide!,
    (write_true_only_on_ack (driver (stuck 0xAA)) zeros 0 row 8 true []).1 (by decide!)⟩

/-- C6: on a valid address, when verification is in effect in the first pass and
the CRC check of the read-back fails in the first and in the second pass, exactly
two read-scratchpad exchanges (reset, select, 0xAA, address echo and status, payload,
CRC) are made; what follows them is the copy-scratchpad exchange and `depower`. -/
theorem write_makes_two_attempts (d : DS2431) (stack : Nat → Nat) (address : Nat)
    (buf : Nat → Nat) (count : Nat) (verify : Bool) (tr : List BusCall)
    (hlt : address < 128) (hal : address % 8 = 0)
    (hv : (header1 d stack address buf count verify tr).verify = true)
    (h1 : crcOk d (payload1 d stack address buf count verify tr) = false)
    (h2 : crcOk d (payload2 d stack address buf count verify tr) = false) :
    (∃ crc0 a1 b1 e1 data1 crc1 a2 b2 e2 data2 crc2 ack,
      (write d stack address buf count verify tr).2 =
        tr ++ (stageCalls d address buf count crc0 ++
          headerCalls d a1 b1 e1 ++ payloadCalls data1 crc1 ++
          headerCalls d a2 b2 e2 ++ payloadCalls data2 crc2 ++
          commitCalls d a2 b2 e2 ack ++ [BusCall.depower])) ∧
    commands ((write d stack address buf count verify tr).2.drop tr.length) =
      [WRITE_SCRATCHPAD, READ_SCRATCHPAD, READ_SCRATCHPAD, COPY_SCRATCHPAD] ∧
    (commands ((write d stack address buf count verify tr).2.drop tr.length)).count
      READ_SCRATCHPAD = 2 := by
  have hc := write_commands d stack address buf count verify tr hlt hal
  simp only [hv, h1, h2, if_true, Bool.false_eq_true, if_false] at hc
  refine ⟨?_, hc, ?_⟩
  · rw [write_eq d stack address buf count verify tr hlt hal]
    simp only [hv, h1, h2, if_true, Bool.false_eq_true, if_false]
    refine ⟨stageCrc d address buf count tr,
      (header1 d stack address buf count verify tr).buffer 1,
      (header1 d stack address buf count verify tr).buffer 2,
      (header1 d stack address buf count verify tr).buffer 3,
      (payload1 d stack address buf count verify tr).data count,
      (payload1 d stack address buf count verify tr).crc16,
      (header2 d stack address buf count verify tr).buffer 1,
      (header2 d stack address buf count verify tr).buffer 2,
      (header2 d stack address buf count verify tr).buffer 3,
      (payload2 d stack address buf count verify tr).data count,
      (payload2 d stack address buf count verify tr).crc16,
      ackByte d (payload2 d stack address buf count verify tr).buffer
        (payload2 d stack address buf count verify tr).tr, ?_⟩
    simp only [callsPayload2, callsHeader2, callsPayload1, callsHeader1, callsCommit,
      payload2_buffer_low d stack address buf count verify tr 1 (by omega),
      payload2_buffer_low d stack address buf count verify tr 2 (by omega),
      payload2_buffer_low d stack address buf count verify tr 3 (by omega)]
  · rw [hc]
    decide

/-- C6 at a concrete input: a line whose read-back CRC arrives as 0, 0 in both passes. -/
theorem write_makes_two_attempts_witness :
    (header1 (driver badReadbackCrc) zeros 0 row 8 true []).verify = true ∧
    crcOk (driver badReadbackCrc) (payload1 (driver badReadbackCrc) zeros 0 row 8 true []) =
      false ∧
    crcOk (driver badReadbackCrc) (payload2 (driver badReadbackCrc) zeros 0 row 8 true []) =
      false ∧
    (commands ((write (driver badReadbackCrc) zeros 0 row 8 true []).2.drop
      ([] : List BusCall).length)).count READ_SCRATCHPAD = 2 :=
  ⟨by decide, by decide, by decide,
    (write_makes_two_attempts (driver badReadbackCrc) zeros 0 row 8 true []
      (by decide) (by decide) (by decide) (by decide) (by decide)).2.2⟩

/-- C10: whenever `write` issues the copy-scratchpad command, the calls it has added
to the bus end with: a read-scratchpad exchange that read TA1, TA2 and E/S, nothing
but further reads of that exchange, then a session in which the one write is the
4-byte frame [0x55, TA1, TA2, E/S] with those same three bytes, one `read()`, and
the closing `depower`; no copy-scratchpad command was issued before. -/
theorem write_commit_frame (d : DS2431) (stack : Nat → Nat) (address : Nat)
    (buf : Nat → Nat) (count : Nat) (verify : Bool) (tr : List BusCall)
    (h : COPY_SCRATCHPAD ∈
      commands ((write d stack address buf count verify tr).2.drop tr.length)) :
    ∃ pre ta1 ta2 es rest ack,
      (write d stack address buf count verify tr).2 =
        tr ++ (pre ++ headerCalls d ta1 ta2 es ++ rest ++
          commitCalls d ta1 ta2 es ack ++ [BusCall.depower]) ∧
      (∀ c ∈ rest, ∃ bs, c = BusCall.read_bytes bs) ∧
      COPY_SCRATCHPAD ∉
        commands (pre ++ headerCalls d ta1 ta2 es ++ rest ++ [BusCall.depower]) := by
  by_cases hbad : address % 8 ≠ 0 ∨ 128 ≤ address
  · rw [write_invalid d stack address buf count verify tr hbad] at h
    simp [commands] at h
  · have hlt : address < 128 := by omega
    have hal : address % 8 = 0 := by omega
    have hno1 : COPY_SCRATCHPAD ∉
        commands (callsPayload1 d stack address buf count verify tr ++ [BusCall.depower]) := by
      rw [commands_payload1]; decide
    have hno2 : COPY_SCRATCHPAD ∉
        commands (callsPayload2 d stack address buf count verify tr ++ [BusCall.depower]) := by
      rw [commands_payload2]; decide
    have hno0 : COPY_SCRATCHPAD ∉
        commands (callsHeader1 d stack address buf count verify tr ++ [BusCall.depower]) := by
      rw [commands_callsHeader1]; decide
    have c1 : ∃ pre ta1 ta2 es rest ack,
        tr ++ (callsPayload1 d stack address buf count verify tr ++
          callsCommit d (payload1 d stack address buf count verify tr).buffer
            (payload1 d stack address buf count verify tr).tr ++ [BusCall.depower]) =
          tr ++ (pre ++ headerCalls d ta1 ta2 es ++ rest ++
            commitCalls d ta1 ta2 es ack ++ [BusCall.depower]) ∧
        (∀ c ∈ rest, ∃ bs, c = BusCall.read_bytes bs) ∧
        COPY_SCRATCHPAD ∉
          commands (pre ++ headerCalls d ta1 ta2 es ++ rest ++ [BusCall.depower]) := by
      refine ⟨stageCalls d address buf count (stageCrc d address buf count tr),
        (header1 d stack address buf count verify tr).buffer 1,
        (header1 d stack address buf count verify tr).buffer 2,
        (header1 d stack address buf count verify tr).buffer 3,
        payloadCalls ((payload1 d stack address buf count verify tr).data count)
          (payload1 d stack address buf count verify tr).crc16,
        ackByte d (payload1 d stack address buf count verify tr).buffer
          (payload1 d stack address buf count verify tr).tr, ?_, ?_, ?_⟩
      · simp only [callsPayload1, callsHeader1, callsCommit,
          payload1_buffer_low d stack address buf count verify tr 1 (by omega),
          payload1_buffer_low d stack address buf count verify tr 2 (by omega),
          payload1_buffer_low d stack address buf count verify tr 3 (by omega)]
      · intro c hc
        simp only [payloadCalls, List.mem_cons, List.mem_singleton, List.not_mem_nil,
          or_false] at hc
        rcases hc with rfl | rfl
        · exact ⟨_, rfl⟩
        · exact ⟨_, rfl⟩
      · simpa only [callsPayload1, callsHeader1] using hno1
    have c2 : ∃ pre ta1 ta2 es rest ack,
        tr ++ (callsPayload2 d stack address buf count verify tr ++
          callsCommit d (payload2 d stack address buf count verify tr).buffer
            (payload2 d stack address buf count verify tr).tr ++ [BusCall.depower]) =
          tr ++ (pre ++ headerCalls d ta1 ta2 es ++ rest ++
            commitCalls d ta1 ta2 es ack ++ [BusCall.depower]) ∧
        (∀ c ∈ rest, ∃ bs, c = BusCall.read_bytes bs) ∧
        COPY_SCRATCHPAD ∉
          commands (pre ++ headerCalls d ta1 ta2 es ++ rest ++ [BusCall.depower]) := by
      refine ⟨callsPayload1 d stack address buf count verify tr,
        (header2 d stack address buf count verify tr).buffer 1,
        (header2 d stack address buf count verify tr).buffer 2,
        (header2 d stack address buf count verify tr).buffer 3,
        payloadCalls ((payload2 d stack address buf count verify tr).data count)
          (payload2 d stack address buf count verify tr).crc16,
        ackByte d (payload2 d stack address buf count verify tr).buffer
          (payload2 d stack address buf count verify tr).tr, ?_, ?_, ?_⟩
      · simp only [callsPayload2, callsHeader2, callsCommit,
          payload2_buffer_low d stack address buf count verify tr 1 (by omega),
          payload2_buffer_low d stack address buf count verify tr 2 (by omega),
          payload2_buffer_low d stack address buf count verify tr 3 (by omega)]
      · intro c hc
        simp only [payloadCalls, List.mem_cons, List.mem_singleton, List.not_mem_nil,
          or_false] at hc
        rcases hc with rfl | rfl
        · exact ⟨_, rfl⟩
        · exact ⟨_, rfl⟩
      · simpa only [callsPayload2, callsHeader2] using hno2
    have hc := write_commands d stack address buf count verify tr hlt hal
    rw [hc] at h
    rw [write_eq d stack address buf count verify tr hlt hal]
    split_ifs at h ⊢
    · exact absurd h (by decide)
    · exact c1
    · exact absurd h (by decide)
    · exact c2
    · exact c2
    · refine ⟨stageCalls d address buf count (stageCrc d address buf count tr),
        (header1 d stack address buf count verify tr).buffer 1,
        (header1 d stack address buf count verify tr).buffer 2,
        (header1 d stack address buf count verify tr).buffer 3, [],
        ackByte d (header1 d stack address buf count verify tr).buffer
          (header1 d stack address buf count verify tr).tr, ?_, ?_, ?_⟩
      · simp only [callsHeader1, callsCommit, List.append_nil]
      · intro c hc
        simp at hc
      · simpa only [callsHeader1, List.append_nil] using hno0

/-- C10 at a concrete input: a driver addressing its device by ROM code. -/
theorem write_commit_frame_witness :
    COPY_SCRATCHPAD ∈ commands ((write (driverFor badReadbackCrc [0x2D, 1, 2, 3, 4, 5, 6, 7])
      zeros 0 row 8 false []).2.drop ([] : List BusCall).length) ∧
    ∃ pre ta1 ta2 es rest ack,
      (write (driverFor badReadbackCrc [0x2D, 1, 2, 3, 4, 5, 6, 7]) zeros 0 row 8 false []).2 =
        [] ++ (pre ++ headerCalls (driverFor badReadbackCrc [0x2D, 1, 2, 3, 4, 5, 6, 7])
          ta1 ta2 es ++ rest ++
          commitCalls (driverFor badReadbackCrc [0x2D, 1, 2, 3, 4, 5, 6, 7]) ta1 ta2 es ack ++
          [BusCall.depower]) ∧
      (∀ c ∈ rest, ∃ bs, c = BusCall.read_bytes bs) ∧
      COPY_SCRATCHPAD ∉
        commands (pre ++ headerCalls (driverFor badReadbackCrc [0x2D, 1, 2, 3, 4, 5, 6, 7])
          ta1 ta2 es ++ rest ++ [BusCall.depower]) :=
  ⟨by decide!,
    write_commit_frame (driverFor badReadbackCrc [0x2D, 1, 2, 3, 4, 5, 6, 7]) zeros 0 row 8
      false [] (by decide!)⟩

/-- C7: on the fault-free line with the simulated chip (status 0x07), for every
address that is a multiple of 8 below 128 and every 8-byte payload, `write` returns
true and a `read` of 8 bytes at the same address, made next, returns the payload. -/
theorem write_read_round_trip (d : DS2431) (stack : Nat → Nat) (address : Nat)
    (payload : Nat → Nat) (verify : Bool) (tr : List BusCall)
    (hd : d._ow = chipLine DS2431_PF_MASK)
    (hlt : address < 128) (hal : address % 8 = 0)
    (hbytes : ∀ i, i < 8 → payload i < 256) :
    (write d stack address payload 8 verify tr).1 = true ∧
    (read d address 8 (write d stack address payload 8 verify tr).2).1 = bytesOf payload 8 := by
  obtain ⟨hret, hmem⟩ := chip_write_ok DS2431_PF_MASK d hd rfl stack address payload verify tr
    hlt hal hbytes
  refine ⟨hret, ?_⟩
  rw [chip_read DS2431_PF_MASK d hd address 8 _ (by omega) (by omega)]
  unfold bytesOf
  apply List.map_congr_left
  intro i hi
  have hi := List.mem_range.mp hi
  rw [hmem i hi]
  exact Nat.mod_eq_of_lt (hbytes i hi)

/-- C7 at a concrete input: the row 1..8 written at address 8 and read back. -/
theorem write_read_round_trip_witness :
    (write (driver (chipLine DS2431_PF_MASK)) zeros 8 row 8 false []).1 = true ∧
    (read (driver (chipLine DS2431_PF_MASK)) 8 8
      (write (driver (chipLine DS2431_PF_MASK)) zeros 8 row 8 false []).2).1 = bytesOf row 8 :=
  write_read_round_trip (driver (chipLine DS2431_PF_MASK)) zeros 8 row false [] rfl
    (by decide) (by decide) (by intro i hi; simp only [row]; omega)

/-- C8 (as stated, refuted): the status byte 0x0F has its low three bits equal to
0x07, yet on the otherwise fault-free line the driver forces verification on it at
the first check and `write` returns false. -/
theorem status_low_bits_set_still_fails :
    (0x0F &&& 0x07 = 0x07) ∧
    (header1 (driver (chipLine 0x0F)) zeros 0 row 8 false []).verify = true ∧
    crcOk (driver (chipLine 0x0F)) (payload1 (driver (chipLine 0x0F)) zeros 0 row 8 false []) =
      true ∧
    (payload1 (driver (chipLine 0x0F)) zeros 0 row 8 false []).echo = 0 ∧
    (payload1 (driver (chipLine 0x0F)) zeros 0 row 8 false []).data 8 = bytesOf row 8 ∧
    (write (driver (chipLine 0x0F)) zeros 0 row 8 false []).1 = false := by
  decide!

/-- C8 (amended): on the fault-free line with a simulated chip whose status byte is
`s`, the driver treats `s` as passing exactly when `s` equals 0x07 as a whole byte:
verification is not forced at the first check if and only if `s = 0x07`, and, with
everything else in order, `write` succeeds if and only if `s = 0x07`. -/
theorem status_passes_iff_eq_mask (s : Nat) (d : DS2431) (stack : Nat → Nat) (address : Nat)
    (payload : Nat → Nat) (tr : List BusCall)
    (hs : s < 256) (hd : d._ow = chipLine s)
    (hlt : address < 128) (hal : address % 8 = 0)
    (hbytes : ∀ i, i < 8 → payload i < 256) :
    ((header1 d stack address payload 8 false tr).verify = false ↔ s = DS2431_PF_MASK) ∧
    ∀ verify, ((write d stack address payload 8 verify tr).1 = true ↔ s = DS2431_PF_MASK) := by
  constructor
  · rw [(chip_header1 s d hd hs stack address payload 8 false tr).1]
    simp [DS2431_PF_MASK]
  · intro verify
    by_cases h7 : s = 7
    · have := (chip_write_ok s d hd h7 stack address payload verify tr hlt hal hbytes).1
      simp [this, h7, DS2431_PF_MASK]
    · have := chip_write_bad s d hd hs h7 stack address payload verify tr hlt hal hbytes
      simp [this, h7, DS2431_PF_MASK]

/-- C8 (amended) at a concrete input: the status byte 0x87. -/
theorem status_passes_iff_eq_mask_witness :
    ((header1 (driver (chipLine 0x87)) zeros 16 row 8 false []).verify = false ↔
      0x87 = DS2431_PF_MASK) ∧
    ∀ verify, ((write (driver (chipLine 0x87)) zeros 16 row 8 verify []).1 = true ↔
      0x87 = DS2431_PF_MASK) :=
  status_passes_iff_eq_mask 0x87 (driver (chipLine 0x87)) zeros 16 row [] (by decide) rfl
    (by decide) (by decide) (by intro i hi; simp only [row]; omega)

/-- C9 (code diverges): for a 4-byte write the checks go beyond the 4 bytes.  The
caller memories `row` and `fourThenZeros` hold the same 4-byte buffer, yet on the
same line `write` succeeds with one and fails with the other; a read-back whose CRC
is right for the 8 bytes exchanged fails the CRC check; and on one and the same
read-back the CRC check passes or fails with the indeterminate contents of
`buffer[8..11]`. -/
theorem short_write_checks_beyond_count :
    bytesOf row 4 = bytesOf fourThenZeros 4 ∧
    (write (driver shortRowPadded) zeros 0 fourThenZeros 4 true []).1 = true ∧
    (write (driver shortRowPadded) zeros 0 row 4 true []).1 = false ∧
    (payload1 (driver shortRow) zeros 0 row 4 true []).data 4 = [1, 2, 3, 4] ∧
    (payload1 (driver shortRow) zeros 0 row 4 true []).crc16 = [97, 55] ∧
    check_crc16 [0xAA, 0, 0, 7, 1, 2, 3, 4] [97, 55] = true ∧
    crcOk (driver shortRow) (payload1 (driver shortRow) zeros 0 row 4 true []) = false ∧
    crcOk (driver shortRowPadded) (payload1 (driver shortRowPadded) zeros 0 row 4 true []) =
      true ∧
    crcOk (driver shortRowPadded) (payload1 (driver shortRowPadded) ones 0 row 4 true []) =
      false := by
  decide!

end DS2431
